import Mathlib

/-!
# WW2 image archive client: view state, selection and rendering

A shallow embedding of the browser client in `src/frontend/js`
(`app.js`, `components.js`, `api.js`): the global `state` object, the part of the DOM
that the handlers read and write, and the handlers themselves as functions
from world to world.

Conventions of the embedding.

* `state.selectedImages` is a JavaScript `Set`.  The code only ever uses
  `has`, `add`, `delete`, `clear` and `size` on it and never iterates it, so
  insertion order is unobservable and the set is a `Finset JsVal`.
* An `async` handler is split at its `await`: the part that runs before the
  request is issued, and the continuation that runs when the request settles,
  which takes the outcome of the request as an argument.
* Effects that are purely presentational and that no handler reads back are
  left out: the page title (`setPageTitle`), the sidebar highlight
  (`updateActiveCategory`), the loading overlay, the open-folder button, the
  progress bar of the download modal, the automatic removal of toasts, the
  windows opened by a video card, console logging, and the elements of a card
  beyond the fields of `Card`.
* A card is filled through `innerHTML`.  An image card always has its
  checkbox, so its markup is not followed; a video card has a checkbox only if
  its markup yields one, so its markup is written out and read by a model of
  the HTML tokenizer.
* Numbers that stand for byte counts and pixel sizes are integers: the value
  of a double that holds an integer.  Dividing a double by 1024 is exact and
  `toFixed(1)` rounds the exact value, so the arithmetic of `formatFileSize` is
  modelled with exact quotients `num / den`.  The conversion of a number to a
  string follows `Number::toString`: the shortest decimal digits that read back
  as the same double, written in full up to 21 digits and in exponent notation
  beyond.
-/

namespace WW2

/-! ## Conversion of numbers to strings -/

/-- The double nearest to the natural number `y`, as a natural number: `y`
itself when it has at most 53 binary digits, and otherwise `y` rounded to 53
significant binary digits, to the even significand on a tie.  (Below the
largest double, which is all that the digits of a double are compared with.) -/
def roundToDouble (y : Nat) : Nat :=
  let bits := (Nat.toDigits 2 y).length
  if bits ≤ 53 then y
  else
    let q := bits - 53
    let m := y / 2 ^ q
    let r := y % 2 ^ q
    let half := 2 ^ (q - 1)
    if half < r || (r == half && m % 2 == 1) then (m + 1) * 2 ^ q else m * 2 ^ q

/-- The pairs `(s, n)` of `Number::toString` for the double `x` with `k`
digits: `s` has `k` decimal digits and `s * 10^(n-k)` reads back as `x`.  Such
an `s * 10^(n-k)` lies within half a unit in the last place of `x`, so `n` is
the number of digits of `x` or one more, and the nearest ones are the two
multiples of `10^(n-k)` around `x`. -/
def decimalCandidates (x k : Nat) : List (Nat × Nat) :=
  let d := (Nat.repr x).length
  ([d, d + 1].filter fun n => decide (k ≤ n)).flatMap fun n =>
    let scale := 10 ^ (n - k)
    ([x / scale, x / scale + 1].filter fun s =>
      decide (10 ^ (k - 1) ≤ s) && decide (s < 10 ^ k) && roundToDouble (s * scale) == x).map
        fun s => (s, n)

/-- The distance between `x` and the number `s * 10^(n-k)` of a pair. -/
def decimalDistance (x : Nat) (c : Nat × Nat) : Nat :=
  let v := c.1 * 10 ^ (c.2 - (Nat.repr c.1).length)
  if v ≤ x then x - v else v - x

/-- The choice among pairs of equal length: the one nearer to `x`, and the
even `s` when both are equally near. -/
def closerCandidate (x : Nat) (a b : Nat × Nat) : Nat × Nat :=
  if decimalDistance x b < decimalDistance x a then b
  else if decimalDistance x b = decimalDistance x a ∧ b.1 % 2 = 0 then b
  else a

/-- The pair `(s, n)` of `Number::toString` with the fewest digits; 17 digits
are enough for every double. -/
def shortestDecimal (x : Nat) : Option (Nat × Nat) :=
  (List.range 17).findSome? fun i =>
    match decimalCandidates x (i + 1) with
    | [] => none
    | c :: cs => some (cs.foldl (closerCandidate x) c)

/-- The string `Number::toString` gives for the double whose value is the
natural number `x`: the digits of `s` followed by `n - k` zeros when
`n ≤ 21`, and exponent notation otherwise.  For a natural number that no
double holds, which no JavaScript value is, there is no pair and the digits of
`x` are written. -/
def natToJsString (x : Nat) : String :=
  if x = 0 then "0"
  else
    match shortestDecimal x with
    | none => Nat.repr x
    | some (s, n) =>
      let digits := (Nat.repr s).data
      if n ≤ 21 then String.mk (digits ++ List.replicate (n - digits.length) '0')
      else
        match digits with
        | [] => ""
        | [c] => String.mk [c] ++ "e+" ++ Nat.repr (n - 1)
        | c :: rest => String.mk (c :: '.' :: rest) ++ "e+" ++ Nat.repr (n - 1)

/-- The string `Number::toString` gives for the double whose value is the
integer `n`. -/
def intToJsString (n : Int) : String :=
  if n < 0 then "-" ++ natToJsString n.natAbs else natToJsString n.natAbs

/-- A number that `parseInt` can return: `NaN`, an infinity, or a double whose
value is an integer.  The two zeros are one value here: both are falsy and
both are written `0`. -/
inductive JsNumber where
  | nan
  | posInfinity
  | negInfinity
  | int (n : Int)
  deriving DecidableEq, Repr

/-- JavaScript truthiness of a number: `NaN` and zero are falsy. -/
def JsNumber.truthy : JsNumber → Bool
  | .nan => false
  | .posInfinity => true
  | .negInfinity => true
  | .int n => n != 0

/-- The string `Number::toString` gives for a number. -/
def JsNumber.toJsString : JsNumber → String
  | .nan => "NaN"
  | .posInfinity => "Infinity"
  | .negInfinity => "-Infinity"
  | .int n => intToJsString n

/-! ## JavaScript values -/

/-- The values a loosely typed field of a JSON entity can hold (`source_id`
and `id` of an image, `downloads` and `year` of a video), and the values
stored in `state.selectedImages`. -/
inductive JsVal where
  | undefined
  | null
  | str (s : String)
  | num (n : Int)
  deriving DecidableEq, Repr

/-- JavaScript truthiness of an identifier value. -/
def JsVal.truthy : JsVal → Bool
  | .undefined => false
  | .null => false
  | .str s => s != ""
  | .num n => n != 0

/-- The JavaScript expression `a || b`. -/
def JsVal.or (a b : JsVal) : JsVal :=
  if a.truthy then a else b

/-- Conversion to a string (`ToString`), as done by an assignment to
`dataset.*` and inside a template literal. -/
def JsVal.toDomString : JsVal → String
  | .undefined => "undefined"
  | .null => "null"
  | .str s => s
  | .num n => intToJsString n

/-- A numeric JSON field that may be absent (`file_size`, `width`, `height`). -/
inductive JsNum where
  | undefined
  | null
  | num (n : Int)
  deriving DecidableEq, Repr

/-- JavaScript truthiness of an optional number. -/
def JsNum.truthy : JsNum → Bool
  | .undefined => false
  | .null => false
  | .num n => n != 0

/-- Conversion of an optional number to a string inside a template literal. -/
def JsNum.toTemplateString : JsNum → String
  | .undefined => "undefined"
  | .null => "null"
  | .num n => intToJsString n

/-- The characters removed by `String.prototype.trim`: the ECMAScript
`WhiteSpace` and `LineTerminator` code points. -/
def isJsWhitespace (c : Char) : Bool :=
  let n := c.toNat
  n == 0x09 || n == 0x0A || n == 0x0B || n == 0x0C || n == 0x0D || n == 0x20 ||
  n == 0xA0 || n == 0x1680 || (0x2000 ≤ n && n ≤ 0x200A) || n == 0x2028 ||
  n == 0x2029 || n == 0x202F || n == 0x205F || n == 0x3000 || n == 0xFEFF

/-- The method `String.prototype.trim`. -/
def jsTrim (s : String) : String :=
  String.mk ((s.data.dropWhile isJsWhitespace).reverse.dropWhile isJsWhitespace).reverse

/-- Truthiness of a value that is `null` or a string (`state.currentCategory`,
the `message` argument of `showEmptyState`). -/
def truthyStr : Option String → Bool
  | none => false
  | some s => s != ""

/-! ## components.js: formatFileSize -/

/-- The running value `size` of `formatFileSize`: the exact quotient
`num / den`. -/
structure Size where
  num : Int
  den : Nat
  deriving DecidableEq, Repr

/-- The test `size >= 1024`. -/
def Size.ge1024 (size : Size) : Bool :=
  decide (1024 * (size.den : Int) ≤ size.num)

/-- The assignment `size /= 1024`. -/
def Size.div1024 (size : Size) : Size :=
  { size with den := size.den * 1024 }

/-- The digits `Number.prototype.toFixed(1)` writes for a non-negative quotient
`num / den` below `10^21`: with `n` the integer nearest to `10 * num / den`
(the larger one on a tie), the decimal digits of `n` with a point before the
last one. -/
def toFixedDigits (num den : Nat) : String :=
  let n := (20 * num + den) / (2 * den)
  Nat.repr (n / 10) ++ "." ++ Nat.repr (n % 10)

/-- The call `size.toFixed(1)`: the sign, and then `Number::toString` of the
absolute value when that is `10^21` or more, its digits with one decimal
otherwise.  A double of `10^21` or more is an integer, so the quotient is
exact in the first case. -/
def Size.toFixed1 (size : Size) : String :=
  (if size.num < 0 then "-" else "") ++
    (if 10 ^ 21 * size.den ≤ size.num.natAbs then natToJsString (size.num.natAbs / size.den)
     else toFixedDigits size.num.natAbs size.den)

/-- The array `units` of `formatFileSize`. -/
def units : List String := ["B", "KB", "MB", "GB"]

/-- The `while` loop of `formatFileSize`.  Every iteration increments
`unitIndex` and the loop stops at `units.length - 1`, so `units.length - 1`
units of fuel run it to its exit from `unitIndex = 0`. -/
def formatFileSizeLoop : Nat → Size → Nat → Size × Nat
  | 0, size, unitIndex => (size, unitIndex)
  | fuel + 1, size, unitIndex =>
    if size.ge1024 && decide (unitIndex < units.length - 1) then
      formatFileSizeLoop fuel size.div1024 (unitIndex + 1)
    else (size, unitIndex)

/-- The function `formatFileSize(bytes)` of components.js. -/
def formatFileSize (bytes : JsNum) : String :=
  match bytes with
  | .undefined => ""
  | .null => ""
  | .num n =>
    if n = 0 then ""
    else
      let r := formatFileSizeLoop (units.length - 1) { num := n, den := 1 } 0
      r.1.toFixed1 ++ " " ++ units.getD r.2 "undefined"

/-! ## The markup of a card

A card receives its content through `innerHTML`, so the elements of a card are
what the HTML parser of the browser makes of the markup string.  The parser is
modelled by its tokenizer: the tags it finds and their attributes. -/

/-- The whitespace of the HTML tokenizer and of a class list: tab, line feed,
form feed, carriage return and space. -/
def isHtmlSpace (c : Char) : Bool :=
  c == '\t' || c == '\n' || c == '\x0c' || c == '\r' || c == ' '

/-- A start tag token: its name and its attributes, in order. -/
structure StartTag where
  name : String
  attrs : List (String × String)
  deriving DecidableEq, Repr

/-- The states of the HTML tokenizer that the model follows: the data state,
the states of a tag and of its attributes, comments, and the text of a
raw-text element. -/
inductive TokenizerState where
  | data
  | tagOpen
  | endTagOpen
  | tagName
  | beforeAttributeName
  | attributeName
  | afterAttributeName
  | beforeAttributeValue
  | attributeValueDouble
  | attributeValueSingle
  | attributeValueUnquoted
  | afterAttributeValueQuoted
  | selfClosingStartTag
  | bogusComment
  | commentStart
  | comment
  | rawText
  | plainText
  deriving DecidableEq, Repr

/-- The tokenizer between two characters: its state, the number of characters
still to pass over after a look ahead, the tag and the attribute under
construction (characters in reverse order), and the start tags emitted so far
(latest first). -/
structure Tokenizer where
  state : TokenizerState
  skip : Nat
  isEndTag : Bool
  tagName : List Char
  attrs : List (String × String)
  hasAttr : Bool
  attrName : List Char
  attrValue : List Char
  startTags : List StartTag
  deriving DecidableEq, Repr

/-- The tokenizer at the start of a fragment. -/
def Tokenizer.initial : Tokenizer :=
  { state := .data, skip := 0, isEndTag := false, tagName := [], attrs := [], hasAttr := false,
    attrName := [], attrValue := [], startTags := [] }

/-- The elements whose content the tokenizer reads as text up to their end
tag.  The escapes of a comment inside `script` are not followed. -/
def rawTextElements : List String :=
  ["script", "style", "textarea", "title", "xmp", "iframe", "noembed", "noframes", "noscript"]

/-- The attribute under construction is added to the tag, unless the tag
already has an attribute of that name. -/
def Tokenizer.finishAttr (t : Tokenizer) : Tokenizer :=
  if t.hasAttr then
    let name := String.mk t.attrName.reverse
    { t with
      attrs :=
        if (t.attrs.lookup name).isSome then t.attrs
        else t.attrs ++ [(name, String.mk t.attrValue.reverse)]
      hasAttr := false, attrName := [], attrValue := [] }
  else t

/-- A new attribute is started with the given first characters of its name. -/
def Tokenizer.startAttr (t : Tokenizer) (name : List Char) : Tokenizer :=
  { t.finishAttr with state := .attributeName, hasAttr := true, attrName := name }

/-- The tag under construction is emitted.  After the start tag of a raw-text
element the tokenizer reads text up to the end tag of that element, and after
`plaintext` to the end of the input. -/
def Tokenizer.emitTag (t : Tokenizer) : Tokenizer :=
  let t1 := t.finishAttr
  let name := String.mk t1.tagName.reverse
  if t1.isEndTag then { t1 with state := .data, attrs := [] }
  else
    { t1 with
      state :=
        if name = "plaintext" then .plainText
        else if name ∈ rawTextElements then .rawText
        else .data
      attrs := []
      startTags := { name := name, attrs := t1.attrs } :: t1.startTags }

/-- The after-attribute-name state. -/
def Tokenizer.afterAttributeName (t : Tokenizer) (c : Char) : Tokenizer :=
  if isHtmlSpace c then { t with state := .afterAttributeName }
  else if c == '/' then { t with state := .selfClosingStartTag }
  else if c == '=' then { t with state := .beforeAttributeValue }
  else if c == '>' then t.emitTag
  else t.startAttr [c.toLower]

/-- The attribute-name state. -/
def Tokenizer.attributeName (t : Tokenizer) (c : Char) : Tokenizer :=
  if isHtmlSpace c || c == '/' || c == '>' then t.afterAttributeName c
  else if c == '=' then { t with state := .beforeAttributeValue }
  else { t with attrName := c.toLower :: t.attrName }

/-- The before-attribute-name state. -/
def Tokenizer.beforeAttributeName (t : Tokenizer) (c : Char) : Tokenizer :=
  if isHtmlSpace c then { t with state := .beforeAttributeName }
  else if c == '/' || c == '>' then t.afterAttributeName c
  else t.startAttr [c.toLower]

/-- Whether the input that follows a `<` in raw text is the end tag of the
element: a slash, the name in either case, and then whitespace, a slash or
`>`. -/
def closesRawText (name : List Char) (rest : List Char) : Bool :=
  match rest with
  | '/' :: after =>
    (after.take name.length).map Char.toLower == name &&
      match after.drop name.length with
      | c :: _ => isHtmlSpace c || c == '/' || c == '>'
      | [] => false
  | _ => false

/-- One step of the tokenizer: the character `c` is consumed, and `rest` is
the input after it. -/
def Tokenizer.consume (t : Tokenizer) (c : Char) (rest : List Char) : Tokenizer :=
  if 0 < t.skip then { t with skip := t.skip - 1 }
  else
    match t.state with
    | .data => if c == '<' then { t with state := .tagOpen } else t
    | .tagOpen =>
      if c == '!' then
        if rest.take 2 == ['-', '-'] then { t with state := .commentStart, skip := 2 }
        else { t with state := .bogusComment }
      else if c == '/' then { t with state := .endTagOpen }
      else if c.isAlpha then
        { t with state := .tagName, isEndTag := false, tagName := [c.toLower], attrs := [] }
      else if c == '?' then { t with state := .bogusComment }
      else if c == '<' then { t with state := .tagOpen }
      else { t with state := .data }
    | .endTagOpen =>
      if c.isAlpha then
        { t with state := .tagName, isEndTag := true, tagName := [c.toLower], attrs := [] }
      else if c == '>' then { t with state := .data }
      else { t with state := .bogusComment }
    | .tagName =>
      if isHtmlSpace c then { t with state := .beforeAttributeName }
      else if c == '/' then { t with state := .selfClosingStartTag }
      else if c == '>' then t.emitTag
      else { t with tagName := c.toLower :: t.tagName }
    | .beforeAttributeName => t.beforeAttributeName c
    | .attributeName => t.attributeName c
    | .afterAttributeName => t.afterAttributeName c
    | .beforeAttributeValue =>
      if isHtmlSpace c then t
      else if c == '"' then { t with state := .attributeValueDouble }
      else if c == '\'' then { t with state := .attributeValueSingle }
      else if c == '>' then t.emitTag
      else { t with state := .attributeValueUnquoted, attrValue := c :: t.attrValue }
    | .attributeValueDouble =>
      if c == '"' then { t with state := .afterAttributeValueQuoted }
      else { t with attrValue := c :: t.attrValue }
    | .attributeValueSingle =>
      if c == '\'' then { t with state := .afterAttributeValueQuoted }
      else { t with attrValue := c :: t.attrValue }
    | .attributeValueUnquoted =>
      if isHtmlSpace c then { t with state := .beforeAttributeName }
      else if c == '>' then t.emitTag
      else { t with attrValue := c :: t.attrValue }
    | .afterAttributeValueQuoted =>
      if isHtmlSpace c then { t with state := .beforeAttributeName }
      else if c == '/' then { t with state := .selfClosingStartTag }
      else if c == '>' then t.emitTag
      else t.beforeAttributeName c
    | .selfClosingStartTag =>
      if c == '>' then t.emitTag else t.beforeAttributeName c
    | .bogusComment => if c == '>' then { t with state := .data } else t
    | .commentStart =>
      if c == '>' then { t with state := .data }
      else if c == '-' && rest.take 1 == ['>'] then { t with state := .data, skip := 1 }
      else if c == '-' && rest.take 2 == ['-', '>'] then { t with state := .data, skip := 2 }
      else if c == '-' && rest.take 3 == ['-', '!', '>'] then { t with state := .data, skip := 3 }
      else { t with state := .comment }
    | .comment =>
      if c == '-' && rest.take 2 == ['-', '>'] then { t with state := .data, skip := 2 }
      else if c == '-' && rest.take 3 == ['-', '!', '>'] then { t with state := .data, skip := 3 }
      else t
    | .rawText =>
      if c == '<' && closesRawText t.tagName.reverse rest then { t with state := .tagOpen }
      else t
    | .plainText => t

/-- The tokenizer run over an input. -/
def Tokenizer.run : Tokenizer → List Char → Tokenizer
  | t, [] => t
  | t, c :: rest => (t.consume c rest).run rest

/-- The start tags of a piece of markup, in order. -/
def startTags (markup : String) : List StartTag :=
  (Tokenizer.initial.run markup.data).startTags.reverse

/-- The classes of a start tag: its `class` attribute split at whitespace. -/
def StartTag.classes (tag : StartTag) : List String :=
  match tag.attrs.lookup "class" with
  | some value =>
    ((value.data.splitOnP isHtmlSpace).filter fun token => !token.isEmpty).map String.mk
  | none => []

/-- Whether the elements that `innerHTML` makes of a piece of markup include
one of the given class, which is what `closest` and `querySelector` look for.
Every start tag is taken to become an element of the card: a character
reference in a class value is not decoded, and the tree builder, which drops
some start tags (table parts outside a table, for example) and reads foreign
content by other rules, is not followed. -/
def markupHasClass (cls markup : String) : Bool :=
  (startTags markup).any fun tag => decide (cls ∈ tag.classes)

/-- The function `escapeHtml(text)` of components.js: the text is made the
content of an element and the markup of the element is read back, which
writes `&`, `<`, `>` and the no-break space as character references and
leaves every other character, the quotation marks included, as it is. -/
def escapeHtml (text : String) : String :=
  String.join (text.data.map fun c =>
    if c == '&' then "&amp;"
    else if c == '<' then "&lt;"
    else if c == '>' then "&gt;"
    else if c == '\xa0' then "&nbsp;"
    else String.singleton c)

/-! ## Entities and cards -/

/-- An image entity as received from the backend (the fields the client
reads). -/
structure Entity where
  source_id : JsVal
  id : JsVal
  title : String
  thumbnail_url : String
  source_url : String
  width : JsNum
  height : JsNum
  file_size : JsNum
  is_downloaded : Bool
  deriving DecidableEq, Repr

/-- A video entity as received from the backend (the fields the client
reads). -/
structure Video where
  title : String
  thumbnail_url : String
  download_url : String
  page_url : String
  downloads : JsVal
  year : JsVal
  deriving DecidableEq, Repr

/-- The expression `image.source_id || image.id`, the identifier under which an
entity is selected. -/
def Entity.selectionId (image : Entity) : JsVal :=
  image.source_id.or image.id

/-- A card element of the grid (an element of class `image-card`). -/
structure Card where
  /-- class `video-card` -/
  video : Bool
  /-- class `selected` -/
  selected : Bool
  /-- the attribute `dataset.imageId`, absent on video cards -/
  imageId : Option String
  /-- the attribute `dataset.imageData`: the entity the JSON text encodes -/
  imageData : Option Entity
  /-- whether the card has an `.image-card-checkbox` child -/
  checkbox : Bool
  /-- whether the card has an `.image-card-badge` child -/
  badge : Bool
  /-- the resolution line of the meta block -/
  resolution : Option String
  /-- the file-size line of the meta block -/
  fileSize : Option String
  /-- the video behind a video card -/
  videoData : Option Video
  deriving DecidableEq, Repr

/-- Reading `card.dataset.imageId`. -/
def Card.datasetImageId (card : Card) : JsVal :=
  match card.imageId with
  | some s => .str s
  | none => .undefined

/-- The function `createImageCard(image, isSelected)` of components.js.  The
image tag, the overlay and the escaped title are left out. -/
def createImageCard (image : Entity) (isSelected : Bool) : Card :=
  let fileSize := formatFileSize image.file_size
  let resolution :=
    if image.width.truthy && image.height.truthy then
      image.width.toTemplateString ++ "×" ++ image.height.toTemplateString
    else ""
  { video := false
    selected := isSelected
    imageId := some image.selectionId.toDomString
    imageData := some image
    checkbox := true
    badge := image.is_downloaded
    resolution := if resolution != "" then some ("📐 " ++ resolution) else none
    fileSize := if fileSize != "" then some ("📦 " ++ fileSize) else none
    videoData := none }

/-- The template literal that `createVideoCard(video)` assigns to
`card.innerHTML`. -/
def videoCardMarkup (video : Video) : String :=
  String.join
    ["\n",
     "        <div class=\"video-badge\">🎬 Video</div>\n",
     "        <div class=\"video-license\">✅ Telifsiz</div>\n",
     "        <img \n",
     "            src=\"",
     video.thumbnail_url,
     "\" \n",
     "            alt=\"",
     escapeHtml video.title,
     "\"\n",
     "            class=\"image-card-image\"\n",
     "            loading=\"lazy\"\n",
     "            onerror=\"this.src='data:image/svg+xml,<svg xmlns=%22http://www.w3.or",
     "g/2000/svg%22 viewBox=%220 0 100 100%22><rect fill=%22%231a1a25%22 width=%22100%",
     "22 height=%22100%22/><text x=%2250%22 y=%2250%22 text-anchor=%22middle%22 fill=%",
     "22%23606070%22 font-size=%2212%22>Video</text></svg>'\"\n",
     "        >\n",
     "        <div class=\"image-card-overlay\"></div>\n",
     "        <div class=\"image-card-content\">\n",
     "            <h4 class=\"image-card-title\">",
     escapeHtml video.title,
     "</h4>\n",
     "            <div class=\"image-card-meta\">\n",
     "                <span>📥 ",
     (video.downloads.or (.num 0)).toDomString,
     " indirme</span>\n",
     "                ",
     (if video.year.truthy then "<span>📅 " ++ video.year.toDomString ++ "</span>" else ""),
     "\n",
     "            </div>\n",
     "            <div class=\"video-actions\">\n",
     "                <button class=\"btn btn-primary btn-small video-download-btn\">⬇️ ",
     "İndir</button>\n",
     "                <button class=\"btn btn-secondary btn-small video-watch-btn\">▶️ İ",
     "zle</button>\n",
     "            </div>\n",
     "        </div>\n",
     "    "]

/-- The template literal that `renderVideos` assigns to `card.innerHTML` for
each video; it differs from that of `createVideoCard` in the `data-url`
attributes of the two buttons. -/
def inlineVideoCardMarkup (video : Video) : String :=
  String.join
    ["\n",
     "            <div class=\"video-badge\">🎬 Video</div>\n",
     "            <div class=\"video-license\">✅ Telifsiz</div>\n",
     "            <img \n",
     "                src=\"",
     video.thumbnail_url,
     "\" \n",
     "                alt=\"",
     escapeHtml video.title,
     "\"\n",
     "                class=\"image-card-image\"\n",
     "                loading=\"lazy\"\n",
     "                onerror=\"this.src='data:image/svg+xml,<svg xmlns=%22http://www.w",
     "3.org/2000/svg%22 viewBox=%220 0 100 100%22><rect fill=%22%231a1a25%22 width=%22",
     "100%22 height=%22100%22/><text x=%2250%22 y=%2250%22 text-anchor=%22middle%22 fi",
     "ll=%22%23606070%22 font-size=%2212%22>Video</text></svg>'\"\n",
     "            >\n",
     "            <div class=\"image-card-overlay\"></div>\n",
     "            <div class=\"image-card-content\">\n",
     "                <h4 class=\"image-card-title\">",
     escapeHtml video.title,
     "</h4>\n",
     "                <div class=\"image-card-meta\">\n",
     "                    <span>📥 ",
     (video.downloads.or (.num 0)).toDomString,
     " indirme</span>\n",
     "                    ",
     (if video.year.truthy then "<span>📅 " ++ video.year.toDomString ++ "</span>" else ""),
     "\n",
     "                </div>\n",
     "                <div class=\"video-actions\">\n",
     "                    <button class=\"btn btn-primary btn-small video-download-btn\"",
     " data-url=\"",
     video.download_url,
     "\">\n",
     "                        ⬇️ İndir\n",
     "                    </button>\n",
     "                    <button class=\"btn btn-secondary btn-small video-watch-btn\" ",
     "data-url=\"",
     video.page_url,
     "\">\n",
     "                        ▶️ İzle\n",
     "                    </button>\n",
     "                </div>\n",
     "            </div>\n",
     "        "]

/-- The card element of a video, of class `image-card video-card`, whose
content is the given markup: it has no `dataset` entries, and it has a
checkbox or a badge when the markup yields an element of that class. -/
def videoCardOf (video : Video) (markup : String) : Card :=
  { video := true
    selected := false
    imageId := none
    imageData := none
    checkbox := markupHasClass "image-card-checkbox" markup
    badge := markupHasClass "image-card-badge" markup
    resolution := none
    fileSize := none
    videoData := some video }

/-- The function `createVideoCard(video)` of app.js.  The template has two
buttons and no checkbox; the thumbnail address is written into it as it is and
the title through `escapeHtml`. -/
def createVideoCard (video : Video) : Card :=
  videoCardOf video (videoCardMarkup video)

/-- The card that the loop of `renderVideos` builds for a video. -/
def renderVideosCard (video : Video) : Card :=
  videoCardOf video (inlineVideoCardMarkup video)

/-! ## The world: `state`, the DOM, pending effects -/

/-- The values of `state.currentView`. -/
inductive View where
  | search
  | category
  | downloaded
  | favorites
  | videos
  deriving DecidableEq, Repr

/-- The global `state` object of app.js.  `searchResultImages` and
`searchResultVideos` do not exist until the first search stores them. -/
structure AppState where
  currentView : View
  currentCategory : Option String
  currentQuery : String
  images : List Entity
  selectedImages : Finset JsVal
  minWidth : JsNumber
  searchResultImages : Option (List Entity)
  searchResultVideos : Option (List Video)
  deriving DecidableEq

/-- The `#emptyState` element. -/
structure EmptyState where
  hidden : Bool
  /-- text of its `h3` -/
  message : String
  /-- text of its `.empty-icon` -/
  icon : String
  deriving DecidableEq, Repr

/-- A search tab (an element of class `search-tab`). -/
structure SearchTab where
  /-- the attribute `dataset.tab` -/
  tab : String
  active : Bool
  deriving DecidableEq, Repr

/-- The part of the document the handlers read and write.  The markup is not
part of the sources, so whether `#emptyState` lies inside `#imageGrid`
(`emptyStateInGrid`) and which search tabs exist are data of the document. -/
structure Dom where
  /-- `elements.searchInput.value` -/
  searchInputValue : String
  /-- class `hidden` of `elements.searchClear` -/
  searchClearHidden : Bool
  /-- the `.image-card` children of `#imageGrid`, in document order -/
  grid : List Card
  /-- what `document.getElementById('emptyState')` finds -/
  emptyState : Option EmptyState
  emptyStateInGrid : Bool
  /-- `elements.downloadSelectedBtn.disabled` -/
  downloadSelectedBtnDisabled : Bool
  /-- `elements.selectedCount.textContent` -/
  selectedCountText : String
  /-- class `hidden` of `elements.selectedCount` -/
  selectedCountHidden : Bool
  /-- `elements.selectAllCheckbox.checked` -/
  selectAllChecked : Bool
  searchTabs : List SearchTab
  /-- class `hidden` of `#searchTabs` -/
  searchTabsHidden : Bool
  tabImageCount : String
  tabVideoCount : String
  /-- the entity shown in `#imageModal`, when it is open -/
  imageModal : Option Entity
  /-- class `hidden` of `#downloadModal` -/
  downloadModalHidden : Bool
  deriving DecidableEq, Repr

/-- A call of a method of the `api` object, with its arguments. -/
inductive Request where
  | getCategoryImages (slug : String) (limit : Int)
  | searchImages (query : String) (limit : Int) (minWidth : JsNumber)
      (category : Option String)
  | searchVideos (query : String) (limit : Int)
  | downloadBatch (images : List Entity) (categorySlug : String)
  | getDownloadedImages
  | getStats
  deriving DecidableEq, Repr

/-- A call `showToast(message, type)`. -/
structure Toast where
  message : String
  type : String
  deriving DecidableEq, Repr

/-- The body of a successful `/download-batch` response. -/
structure BatchResult where
  success : Bool
  downloaded : Int
  skipped : Int
  failed : Int
  total : Int
  deriving DecidableEq, Repr

/-- The whole client: `state`, the document, the transport calls issued so far
(oldest first), the toasts shown so far, and the callbacks that
`downloadSelected` has handed to `setTimeout` so far, each given by the
response it closes over. -/
structure World where
  state : AppState
  dom : Dom
  requests : List Request
  toasts : List Toast
  timers : List BatchResult

/-- How an awaited request settles. -/
inductive Outcome (α : Type) where
  | resolved (result : α)
  | rejected
  deriving DecidableEq, Repr

/-- The body of a `/category-images` or `/search` response. -/
structure ImagesResponse where
  success : Bool
  images : Option (List Entity)
  deriving DecidableEq, Repr

/-- The body of a `/videos` response. -/
structure VideosResponse where
  success : Bool
  videos : Option (List Video)
  deriving DecidableEq, Repr

/-- An entry of a `/downloaded` response. -/
structure DownloadedFile where
  filename : String
  web_url : String
  file_size : JsNum
  deriving DecidableEq, Repr

/-- The body of a `/downloaded` response. -/
structure DownloadedResponse where
  success : Bool
  images : Option (List DownloadedFile)
  deriving DecidableEq, Repr

/-- A category of the sidebar. -/
structure Category where
  slug : String
  name : String
  deriving DecidableEq, Repr

/-- The `state` object as app.js creates it. -/
def initialAppState : AppState :=
  { currentView := .search
    currentCategory := none
    currentQuery := ""
    images := []
    selectedImages := ∅
    minWidth := .int 600
    searchResultImages := none
    searchResultVideos := none }

/-! ## components.js: empty state and toasts -/

/-- The default value of the parameter `icon` of `showEmptyState`. -/
def defaultEmptyIcon : String := "🖼️"

/-- The function `hideEmptyState()` of components.js. -/
def hideEmptyState (w : World) : World :=
  { w with dom := { w.dom with
      emptyState := w.dom.emptyState.map fun e => { e with hidden := true } } }

/-- The function `showEmptyState(message = null, icon = '🖼️')` of
components.js; an argument that is not supplied is `none`.  It removes every
`.image-card` of the grid and, when the `#emptyState` element is found, sets
its text (only for a truthy `message`), its icon, and shows it. -/
def showEmptyState (message icon : Option String) (w : World) : World :=
  { w with dom := { w.dom with
      grid := []
      emptyState := w.dom.emptyState.map fun e =>
        { hidden := false
          message := if truthyStr message then message.getD "" else e.message
          icon := icon.getD defaultEmptyIcon } } }

/-- The function `showToast(message, type)` of components.js, as a record of
the call. -/
def showToast (message type : String) (w : World) : World :=
  { w with toasts := w.toasts ++ [{ message := message, type := type }] }

/-! ## app.js: selection -/

/-- The function `updateSelectionUI()` of app.js. -/
def updateSelectionUI (w : World) : World :=
  let count := w.state.selectedImages.card
  { w with dom := { w.dom with
      downloadSelectedBtnDisabled := decide (count = 0)
      selectedCountText := if count > 0 then toString count else w.dom.selectedCountText
      selectedCountHidden := if count > 0 then false else true
      selectAllChecked := decide (count > 0) && decide (count = w.state.images.length) } }

/-- The function `toggleImageSelection(card)` of app.js; the card is given by
its position in the grid.  The click handler only passes cards of the grid, so
a position outside the grid leaves the world as it is. -/
def toggleImageSelection (idx : Nat) (w : World) : World :=
  match w.dom.grid.get? idx with
  | none => w
  | some card =>
    let imageId := card.datasetImageId
    let w1 : World :=
      if imageId ∈ w.state.selectedImages then
        { w with
          state := { w.state with selectedImages := w.state.selectedImages.erase imageId }
          dom := { w.dom with grid := w.dom.grid.set idx { card with selected := false } } }
      else
        { w with
          state := { w.state with selectedImages := insert imageId w.state.selectedImages }
          dom := { w.dom with grid := w.dom.grid.set idx { card with selected := true } } }
    updateSelectionUI w1

/-- The function `toggleSelectAll()` of app.js.  It reads the checkbox, which
the browser has already switched when the `change` event fires. -/
def toggleSelectAll (w : World) : World :=
  let isChecked := w.dom.selectAllChecked
  let w1 : World :=
    if isChecked then
      { w with state := { w.state with
          selectedImages :=
            w.state.images.foldl (fun acc image => insert image.selectionId acc)
              w.state.selectedImages } }
    else
      { w with state := { w.state with selectedImages := ∅ } }
  let w2 : World :=
    { w1 with dom := { w1.dom with
        grid := w1.dom.grid.map fun card => { card with selected := isChecked } } }
  updateSelectionUI w2

/-- The user switches the select-all checkbox to `checked`; the browser updates
the checkbox and fires `change`, whose listener is `toggleSelectAll`. -/
def changeSelectAll (checked : Bool) (w : World) : World :=
  toggleSelectAll { w with dom := { w.dom with selectAllChecked := checked } }

/-! ## app.js: rendering -/

/-- The function `renderImages(images)` of app.js. -/
def renderImages (images : List Entity) (w : World) : World :=
  let w1 := hideEmptyState w
  let cards := images.map fun image =>
    createImageCard image (decide (image.selectionId ∈ w1.state.selectedImages))
  updateSelectionUI { w1 with dom := { w1.dom with grid := cards } }

/-- The function `renderVideos(videos)` of app.js. -/
def renderVideos (videos : List Video) (w : World) : World :=
  let w1 := hideEmptyState w
  updateSelectionUI { w1 with dom := { w1.dom with grid := videos.map renderVideosCard } }

/-- The function `switchSearchTab(tabName)` of app.js.  Setting
`imageGrid.innerHTML = ''` removes every child of the grid, the `#emptyState`
element included when it lies inside the grid. -/
def switchSearchTab (tabName : String) (w : World) : World :=
  let w1 : World :=
    { w with dom := { w.dom with
        searchTabs := w.dom.searchTabs.map fun t => { t with active := decide (t.tab = tabName) } } }
  let w2 := hideEmptyState w1
  let w3 : World :=
    { w2 with dom := { w2.dom with
        grid := []
        emptyState := if w2.dom.emptyStateInGrid then none else w2.dom.emptyState } }
  let w4 : World :=
    if tabName = "images" then
      let images := w3.state.searchResultImages.getD []
      let w5 : World := { w3 with state := { w3.state with images := images } }
      let w6 : World :=
        if images.length = 0 then
          showEmptyState (some "Görsel bulunamadı") (some "🖼️") w5
        else
          { w5 with dom := { w5.dom with
              grid := w5.dom.grid ++ images.map fun image =>
                createImageCard image (decide (image.source_id ∈ w5.state.selectedImages)) } }
      { w6 with dom := { w6.dom with
          downloadSelectedBtnDisabled := decide (w6.state.selectedImages.card = 0) } }
    else if tabName = "videos" then
      let videos := w3.state.searchResultVideos.getD []
      if videos.length = 0 then
        showEmptyState (some "Video bulunamadı") (some "🎬") w3
      else
        { w3 with dom := { w3.dom with grid := w3.dom.grid ++ videos.map createVideoCard } }
    else w3
  updateSelectionUI w4

/-! ## app.js: categories and search -/

/-- The function `loadCategoryImages(slug)` up to its `await`: the request is
issued. -/
def loadCategoryImagesRequest (slug : String) (w : World) : World :=
  { w with requests := w.requests ++ [.getCategoryImages slug 100] }

/-- The continuation of `loadCategoryImages` once the request has settled. -/
def loadCategoryImagesResume (outcome : Outcome ImagesResponse) (w : World) : World :=
  match outcome with
  | .resolved result =>
    if result.success then
      let w1 : World := { w with state := { w.state with images := result.images.getD [] } }
      let w2 := renderImages w1.state.images w1
      if w2.state.images.length = 0 then
        showEmptyState (some "Bu kategoride henüz görsel yok") (some "📭") w2
      else w2
    else w
  | .rejected =>
    showEmptyState (some "Görseller yüklenemedi") (some "❌")
      (showToast "Görseller yüklenirken hata oluştu" "error" w)

/-- The function `loadCategoryImages(slug)` when nothing else runs between the
request and its outcome. -/
def loadCategoryImages (slug : String) (outcome : Outcome ImagesResponse) (w : World) : World :=
  loadCategoryImagesResume outcome (loadCategoryImagesRequest slug w)

/-- The function `selectCategory(category)` up to the `await` inside
`loadCategoryImages`. -/
def selectCategoryRequest (category : Category) (w : World) : World :=
  loadCategoryImagesRequest category.slug
    { w with
      state := { w.state with
        currentView := .category
        currentCategory := some category.slug
        currentQuery := "" }
      dom := { w.dom with searchInputValue := "" } }

/-- The function `selectCategory(category)` when nothing else runs between the
request and its outcome. -/
def selectCategory (category : Category) (outcome : Outcome ImagesResponse) (w : World) : World :=
  loadCategoryImagesResume outcome (selectCategoryRequest category w)

/-- The function `handleSearch()` up to its `await`: for a blank query it only
hides the clear button; otherwise it records the query and issues both
requests. -/
def handleSearchRequest (w : World) : World :=
  let query := jsTrim w.dom.searchInputValue
  if query = "" then
    { w with dom := { w.dom with searchClearHidden := true } }
  else
    let w1 : World :=
      { w with
        dom := { w.dom with searchClearHidden := false }
        state := { w.state with
          currentView := .search
          currentQuery := query
          currentCategory := none } }
    { w1 with requests := w1.requests ++
        [.searchImages query 50 w1.state.minWidth w1.state.currentCategory,
         .searchVideos query 30] }

/-- The continuation of `handleSearch` once `Promise.all` has settled.
`Promise.all` rejects as soon as one of the two requests rejects, and the
`catch` block then runs. -/
def handleSearchResume (imageResult : Outcome ImagesResponse)
    (videoResult : Outcome VideosResponse) (w : World) : World :=
  match imageResult, videoResult with
  | .resolved imageResult, .resolved videoResult =>
    let images := if imageResult.success then imageResult.images.getD [] else []
    let videos := if videoResult.success then videoResult.videos.getD [] else []
    let w1 : World :=
      { w with
        state := { w.state with
          searchResultImages := some images
          searchResultVideos := some videos }
        dom := { w.dom with
          tabImageCount := toString images.length
          tabVideoCount := toString videos.length
          searchTabsHidden := false } }
    if images.length > 0 then switchSearchTab "images" w1
    else if videos.length > 0 then switchSearchTab "videos" w1
    else
      let w2 := showEmptyState (some "Sonuç bulunamadı") (some "🔍") (switchSearchTab "images" w1)
      { w2 with dom := { w2.dom with searchTabsHidden := true } }
  | _, _ =>
    showEmptyState (some "Arama yapılamadı") (some "❌")
      (showToast "Arama sırasında hata oluştu" "error" w)

/-- The function `handleSearch()` when nothing else runs between the requests
and their outcomes. -/
def handleSearch (imageResult : Outcome ImagesResponse)
    (videoResult : Outcome VideosResponse) (w : World) : World :=
  if jsTrim w.dom.searchInputValue = "" then handleSearchRequest w
  else handleSearchResume imageResult videoResult (handleSearchRequest w)

/-- The function `clearSearch()` of app.js.  With a category set it starts
`loadCategoryImages` and returns without awaiting it. -/
def clearSearch (w : World) : World :=
  let w1 : World :=
    { w with
      dom := { w.dom with searchInputValue := "", searchClearHidden := true }
      state := { w.state with currentQuery := "" } }
  if truthyStr w1.state.currentCategory then
    loadCategoryImagesRequest (w1.state.currentCategory.getD "") w1
  else
    let w2 : World := { w1 with state := { w1.state with images := [] } }
    showEmptyState none none (renderImages [] w2)

/-! ## app.js: collections -/

/-- The function `loadDownloadedImages()` up to its `await`. -/
def loadDownloadedImagesRequest (w : World) : World :=
  { w with
    state := { w.state with
      currentView := .downloaded
      currentCategory := none
      currentQuery := "" }
    requests := w.requests ++ [.getDownloadedImages] }

/-- The object that `loadDownloadedImages` builds from an entry of the
response. -/
def downloadedEntity (img : DownloadedFile) : Entity :=
  { source_id := .str img.filename
    id := .undefined
    title := img.filename
    source_url := img.web_url
    thumbnail_url := img.web_url
    width := .undefined
    height := .undefined
    file_size := img.file_size
    is_downloaded := true }

/-- The continuation of `loadDownloadedImages`.  A successful body without an
`images` array makes `result.images.map` throw, which the `catch` block
reports. -/
def loadDownloadedImagesResume (outcome : Outcome DownloadedResponse) (w : World) : World :=
  match outcome with
  | .resolved result =>
    if result.success then
      match result.images with
      | some files =>
        let images := files.map downloadedEntity
        let w1 : World := { w with state := { w.state with images := images } }
        let w2 := renderImages images w1
        if images.length = 0 then
          showEmptyState (some "Henüz görsel indirmediniz") (some "📭") w2
        else w2
      | none => showToast "Görseller yüklenirken hata oluştu" "error" w
    else w
  | .rejected => showToast "Görseller yüklenirken hata oluştu" "error" w

/-- The function `loadDownloadedImages()` when nothing else runs between the
request and its outcome. -/
def loadDownloadedImages (outcome : Outcome DownloadedResponse) (w : World) : World :=
  loadDownloadedImagesResume outcome (loadDownloadedImagesRequest w)

/-- The function `loadFavorites()` of app.js. -/
def loadFavorites (w : World) : World :=
  showEmptyState (some "Favori özelliği yakında!") (some "⭐")
    { w with state := { w.state with
        currentView := .favorites
        currentCategory := none
        currentQuery := "" } }

/-- The function `loadVideos(query)` up to its `await`. -/
def loadVideosRequest (query : String) (w : World) : World :=
  { w with
    state := { w.state with
      currentView := .videos
      currentCategory := none
      currentQuery := query }
    requests := w.requests ++ [.searchVideos query 30] }

/-- The continuation of `loadVideos`. -/
def loadVideosResume (outcome : Outcome VideosResponse) (w : World) : World :=
  match outcome with
  | .resolved result =>
    if result.success then
      match result.videos with
      | some videos =>
        let w1 := renderVideos videos w
        if videos.length = 0 then showEmptyState (some "Video bulunamadı") (some "🎬") w1
        else w1
      | none => w
    else w
  | .rejected =>
    showEmptyState (some "Videolar yüklenemedi") (some "❌")
      (showToast "Videolar yüklenirken hata oluştu" "error" w)

/-- The function `loadVideos(query)` when nothing else runs between the
request and its outcome. -/
def loadVideos (query : String) (outcome : Outcome VideosResponse) (w : World) : World :=
  loadVideosResume outcome (loadVideosRequest query w)

/-! ## app.js: batch download -/

/-- The function `downloadSelected()` up to its `await`. -/
def downloadSelectedRequest (w : World) : World :=
  if w.state.selectedImages.card = 0 then
    showToast "Lütfen önce görsel seçin" "warning" w
  else
    let selectedImageData := w.state.images.filter fun img =>
      decide (img.selectionId ∈ w.state.selectedImages)
    let category :=
      if truthyStr w.state.currentCategory then w.state.currentCategory.getD "" else "diger"
    { w with
      dom := { w.dom with downloadModalHidden := false }
      requests := w.requests ++ [.downloadBatch selectedImageData category] }

/-- The continuation of `downloadSelected`: a successful body schedules the
completion callback with `setTimeout`, a rejection closes the modal and
reports the error. -/
def downloadSelectedResume (outcome : Outcome BatchResult) (w : World) : World :=
  match outcome with
  | .resolved result =>
    if result.success then { w with timers := w.timers ++ [result] } else w
  | .rejected =>
    showToast "İndirme sırasında hata oluştu" "error"
      { w with dom := { w.dom with downloadModalHidden := true } }

/-- The callback that `downloadSelected` hands to `setTimeout`: it closes the
modal, reports the counts, clears the selection and calls `loadStats()`, which
issues the stats request. -/
def downloadSelectedTimeout (result : BatchResult) (w : World) : World :=
  let w1 : World := { w with dom := { w.dom with downloadModalHidden := true } }
  let w2 := showToast
    (toString result.downloaded ++ " görsel indirildi, " ++ toString result.skipped ++ " atlandı")
    (if result.failed > 0 then "warning" else "success") w1
  let w3 : World := { w2 with state := { w2.state with selectedImages := ∅ } }
  let w4 : World :=
    { w3 with dom := { w3.dom with
        grid := w3.dom.grid.map fun card => { card with selected := false } } }
  let w5 := updateSelectionUI w4
  { w5 with requests := w5.requests ++ [.getStats] }

/-! ## app.js: clicks on the grid -/

/-- The function `openImageModal(card)` of app.js.  A card without
`dataset.imageData` makes `JSON.parse` throw, which the `catch` block only
logs. -/
def openImageModal (card : Card) (w : World) : World :=
  match card.imageData with
  | some imageData => { w with dom := { w.dom with imageModal := some imageData } }
  | none => w

/-- The function `handleImageGridClick(e)` of app.js.  The target of the click
is given by the position of the card that contains it, if any, and by whether
it lies on the checkbox of that card; only a card that has a checkbox can be
clicked on its checkbox. -/
def handleImageGridClick (target : Option Nat) (onCheckbox : Bool) (w : World) : World :=
  match target with
  | none => w
  | some idx =>
    match w.dom.grid.get? idx with
    | none => w
    | some card =>
      if onCheckbox && card.checkbox then toggleImageSelection idx w
      else openImageModal card w

/-! ## Events -/

/-- The user edits the search box; the `input` listener shows the clear button
exactly for a non-blank text. -/
def typeSearch (text : String) (w : World) : World :=
  { w with dom := { w.dom with
      searchInputValue := text
      searchClearHidden := decide (jsTrim text = "") } }

/-- A quick-search button is clicked: its query is written into the search box
and `handleSearch` runs. -/
def quickSearch (query : String) (w : World) : World :=
  handleSearchRequest { w with dom := { w.dom with searchInputValue := query } }

/-- The `change` listener of the width select, where `value` is the number
`parseInt` returns for the value of the select (`NaN` when it does not start
with digits): it stores the number as the minimum width and repeats the search
when a query is active. -/
def changeMinWidth (value : JsNumber) (w : World) : World :=
  let w1 : World := { w with state := { w.state with minWidth := value } }
  if w1.state.currentQuery != "" then handleSearchRequest w1 else w1

/-- The events of the client: the user's intents, the settling of a request,
and the firing of a timer.  A continuation is an event of its own because
other events may run between a request and its outcome. -/
inductive Action where
  | typeSearch (text : String)
  | handleSearch
  | handleSearchSettled (imageResult : Outcome ImagesResponse)
      (videoResult : Outcome VideosResponse)
  | selectCategory (category : Category)
  | loadCategoryImagesSettled (outcome : Outcome ImagesResponse)
  | clearSearch
  | loadDownloadedImages
  | loadDownloadedImagesSettled (outcome : Outcome DownloadedResponse)
  | loadFavorites
  | loadVideos (query : String)
  | loadVideosSettled (outcome : Outcome VideosResponse)
  | toggleImageSelection (idx : Nat)
  | changeSelectAll (checked : Bool)
  | switchSearchTab (tabName : String)
  | downloadSelected
  | downloadSelectedSettled (outcome : Outcome BatchResult)
  | downloadSelectedTimeout (result : BatchResult)
  | handleImageGridClick (target : Option Nat) (onCheckbox : Bool)
  | quickSearch (query : String)
  | changeMinWidth (value : JsNumber)

/-- The effect of one event on the world. -/
def step (a : Action) (w : World) : World :=
  match a with
  | .typeSearch text => typeSearch text w
  | .handleSearch => handleSearchRequest w
  | .handleSearchSettled imageResult videoResult => handleSearchResume imageResult videoResult w
  | .selectCategory category => selectCategoryRequest category w
  | .loadCategoryImagesSettled outcome => loadCategoryImagesResume outcome w
  | .clearSearch => clearSearch w
  | .loadDownloadedImages => loadDownloadedImagesRequest w
  | .loadDownloadedImagesSettled outcome => loadDownloadedImagesResume outcome w
  | .loadFavorites => loadFavorites w
  | .loadVideos query => loadVideosRequest query w
  | .loadVideosSettled outcome => loadVideosResume outcome w
  | .toggleImageSelection idx => toggleImageSelection idx w
  | .changeSelectAll checked => changeSelectAll checked w
  | .switchSearchTab tabName => switchSearchTab tabName w
  | .downloadSelected => downloadSelectedRequest w
  | .downloadSelectedSettled outcome => downloadSelectedResume outcome w
  | .downloadSelectedTimeout result => downloadSelectedTimeout result w
  | .handleImageGridClick target onCheckbox => handleImageGridClick target onCheckbox w
  | .quickSearch query => quickSearch query w
  | .changeMinWidth value => changeMinWidth value w

/-- The worlds the client can be in: it starts with the `state` object of
app.js and any document, and then handles events one at a time.  Continuations
and timers are allowed at any time, which covers every order in which the
browser can schedule them. -/
inductive Reachable : World → Prop where
  | init (w : World) (h : w.state = initialAppState) : Reachable w
  | step (a : Action) (w : World) (h : Reachable w) : Reachable (step a w)

/-! ## Example data -/

/-- An image entity whose `source_id` is the given string and that has no other
optional field. -/
def exampleEntity (sourceId : String) : Entity :=
  { source_id := .str sourceId
    id := .undefined
    title := sourceId
    thumbnail_url := ""
    source_url := ""
    width := .undefined
    height := .undefined
    file_size := .undefined
    is_downloaded := false }

/-- A document with an empty grid, the empty state outside the grid and both
search tabs. -/
def exampleDom : Dom :=
  { searchInputValue := ""
    searchClearHidden := true
    grid := []
    emptyState := some { hidden := false, message := "", icon := defaultEmptyIcon }
    emptyStateInGrid := false
    downloadSelectedBtnDisabled := true
    selectedCountText := ""
    selectedCountHidden := true
    selectAllChecked := false
    searchTabs := [{ tab := "images", active := true }, { tab := "videos", active := false }]
    searchTabsHidden := true
    tabImageCount := "0"
    tabVideoCount := "0"
    imageModal := none
    downloadModalHidden := true }

/-- A world that displays `images`, rendered by `renderImages`, with the
selection `selected`. -/
def exampleWorld (images : List Entity) (selected : Finset JsVal) : World :=
  renderImages images
    { state := { initialAppState with images := images, selectedImages := selected }
      dom := exampleDom
      requests := []
      toasts := []
      timers := [] }

/-- The world right after start-up with the example document: the `state`
object of app.js and nothing requested or shown yet. -/
def initialWorld : World :=
  { state := initialAppState
    dom := exampleDom
    requests := []
    toasts := []
    timers := [] }

/-- A successful image response with the given entities. -/
def imagesResponse (images : List Entity) : Outcome ImagesResponse :=
  .resolved { success := true, images := some images }

/-- The world after a category response with the single entity `a` has been
displayed and the user has ticked the card of `a`. -/
def oneSelectedWorld : World :=
  toggleImageSelection 0
    (loadCategoryImagesResume (imagesResponse [exampleEntity "a"]) initialWorld)

/-- The world after a second category response, with the single entity `b`,
has replaced the list of `oneSelectedWorld`. -/
def staleSelectionWorld : World :=
  loadCategoryImagesResume (imagesResponse [exampleEntity "b"]) oneSelectedWorld

/-- The derived selection values as `updateSelectionUI` leaves them: the
batch-download button is enabled exactly when the selection is non-empty, the
badge shows the size of the selection when it is non-empty and is hidden when
it is empty, and the select-all checkbox is checked exactly when the selection
is non-empty and as large as `state.images`. -/
@[reducible]
def SelectionUISynced (w : World) : Prop :=
  (w.dom.downloadSelectedBtnDisabled = false ↔ 0 < w.state.selectedImages.card) ∧
  (0 < w.state.selectedImages.card →
    w.dom.selectedCountHidden = false ∧
      w.dom.selectedCountText = toString w.state.selectedImages.card) ∧
  (w.state.selectedImages.card = 0 → w.dom.selectedCountHidden = true) ∧
  (w.dom.selectAllChecked = true ↔
    0 < w.state.selectedImages.card ∧ w.state.selectedImages.card = w.state.images.length)

/-- Category and query are not both set: `state.currentCategory` is `null` or
`state.currentQuery` is the empty string. -/
@[reducible]
def CategoryQueryExclusive (w : World) : Prop :=
  ¬ (w.state.currentCategory ≠ none ∧ w.state.currentQuery ≠ "")

/-- Whether an identifier value is a string. -/
def JsVal.isStr : JsVal → Bool
  | .str _ => true
  | _ => false

/-- The unit index as the specification words it: the number of times the
byte count `b` can be divided by 1024 while the running value is still at
least 1024, which is the integer logarithm of `b` to base 1024, capped
at 3. -/
def unitIndexOf (b : Nat) : Nat :=
  min (Nat.log 1024 b) 3

/-- The value `b / 1024^k` in tenths, rounded to the nearest integer (upwards on
a tie). -/
def tenthsOf (b k : Nat) : Nat :=
  (20 * b + 1024 ^ k) / (2 * 1024 ^ k)

/-- A category of the sidebar. -/
def exampleCategory : Category :=
  { slug := "tanks", name := "Tanks" }

/-! ## api.js: the transport adapter -/

/-- The value of the property `detail` read from a parsed error body:
`undefined` (the body has no such property), a string, or another JSON value,
of which only its truthiness and its conversion to a string matter to
`error.detail || ...` and to `new Error(...)`. -/
inductive Detail where
  | absent
  | str (s : String)
  | other (truthy : Bool) (text : String)
  deriving DecidableEq, Repr

/-- JavaScript truthiness of a `detail` value. -/
def Detail.truthy : Detail → Bool
  | .absent => false
  | .str s => s != ""
  | .other truthy _ => truthy

/-- The message `new Error(detail)` carries for a truthy `detail`. -/
def Detail.text : Detail → String
  | .absent => "undefined"
  | .str s => s
  | .other _ text => text

/-- What `response.json()` yields: a rejection when the body is not JSON, the
value `null`, or another JSON value, given by its property `detail` and by the
value as the caller of `request` reads it. -/
inductive JsonBody (α : Type) where
  | unparsable
  | null
  | value (detail : Detail) (content : α)
  deriving DecidableEq, Repr

/-- A response that `fetch` resolves with. -/
structure HttpResponse (α : Type) where
  status : Nat
  body : JsonBody α
  deriving DecidableEq, Repr

/-- The property `response.ok`: the status is in the range 200 to 299. -/
def HttpResponse.ok {α : Type} (response : HttpResponse α) : Bool :=
  decide (200 ≤ response.status) && decide (response.status ≤ 299)

/-- How the call of `fetch` settles: with a response, or with a rejection that
carries the message of the transport error. -/
inductive FetchOutcome (α : Type) where
  | response (r : HttpResponse α)
  | networkError (message : String)
  deriving DecidableEq, Repr

/-- The errors `ApiClient.request` rejects with: the `Error` it builds for a
non-2xx status, the `TypeError` of reading `detail` of `null`, the
`SyntaxError` of a 2xx body that is not JSON, and the transport error of
`fetch`, which it rethrows. -/
inductive RequestError where
  | error (message : String)
  | typeError
  | syntaxError
  | network (message : String)
  deriving DecidableEq, Repr

/-- The method `ApiClient.request(endpoint, options)` of api.js, as a function
of how `fetch` settles.  It returns the parsed body (`none` for the JSON value
`null`) or rejects; the `catch` block logs the error and rethrows it.  An
unparsable error body is replaced by the empty object, whose `detail` is
`undefined`. -/
def ApiClient.request {α : Type} (outcome : FetchOutcome α) : Except RequestError (Option α) :=
  match outcome with
  | .networkError message => .error (.network message)
  | .response response =>
    if !response.ok then
      match response.body with
      | .unparsable => .error (.error ("HTTP Error: " ++ toString response.status))
      | .null => .error .typeError
      | .value detail _ =>
        if detail.truthy then .error (.error detail.text)
        else .error (.error ("HTTP Error: " ++ toString response.status))
    else
      match response.body with
      | .unparsable => .error .syntaxError
      | .null => .ok none
      | .value _ content => .ok (some content)

/-- The object that `ApiClient.downloadBatch` passes to `JSON.stringify`. -/
structure BatchBody where
  images : List Entity
  category_slug : String
  deriving DecidableEq, Repr

/-- A call `this.request(endpoint, options)`: the endpoint, the method and the
body of the options. -/
structure FetchCall where
  endpoint : String
  method : String
  body : Option BatchBody
  deriving DecidableEq, Repr

/-- The method `ApiClient.downloadBatch(images, categorySlug)` of api.js: the
call of `request` it makes. -/
def ApiClient.downloadBatch (images : List Entity) (categorySlug : String) : FetchCall :=
  { endpoint := "/download-batch"
    method := "POST"
    body := some { images := images, category_slug := categorySlug } }

/-! ## Further example data and predicates -/

/-- A video entity with the given title. -/
def exampleVideo (title : String) : Video :=
  { title := title
    thumbnail_url := ""
    download_url := ""
    page_url := ""
    downloads := .undefined
    year := .undefined }

/-- A successful video response with the given entities. -/
def videosResponse (videos : List Video) : Outcome VideosResponse :=
  .resolved { success := true, videos := some videos }

/-- The world in which the user has typed the given text into the search box of
the start-up document and pressed Enter: both search requests are
outstanding. -/
def searchingWorld (text : String) : World :=
  handleSearchRequest (typeSearch text initialWorld)

/-- A video entity whose title holds two quotation marks: the first ends the
`alt` attribute the title is written into, and what follows it reads as a
`class` attribute of the image. -/
def quotedTitleVideo : Video :=
  exampleVideo "v\" class=\"image-card-checkbox"

/-- The world after `loadVideos` has received `quotedTitleVideo` in the
start-up document, which `renderVideos` displays. -/
def quotedTitleWorld : World :=
  loadVideosResume (videosResponse [quotedTitleVideo]) (loadVideosRequest "tank" initialWorld)

/-- The world after a search for `tank` has found no image and the video
`quotedTitleVideo`, which `switchSearchTab` displays through
`createVideoCard`. -/
def quotedTitleSearchWorld : World :=
  handleSearchResume (imagesResponse []) (videosResponse [quotedTitleVideo])
    (searchingWorld "tank")

/-- The world after a search for `obscure_term_x` has resolved with no image
and no video. -/
def noResultWorld : World :=
  handleSearchResume (imagesResponse []) (videosResponse []) (searchingWorld "obscure_term_x")

/-- The world in which four entities are displayed and all four are selected
through the select-all checkbox. -/
def fourSelectedWorld : World :=
  changeSelectAll true
    (loadCategoryImagesResume
      (imagesResponse [exampleEntity "a", exampleEntity "b", exampleEntity "c", exampleEntity "d"])
      initialWorld)

/-- The expression `imageResult.success ? (imageResult.images || []) : []` of
`handleSearch`. -/
def ImagesResponse.list (r : ImagesResponse) : List Entity :=
  if r.success then r.images.getD [] else []

/-- The expression `videoResult.success ? (videoResult.videos || []) : []` of
`handleSearch`. -/
def VideosResponse.list (r : VideosResponse) : List Video :=
  if r.success then r.videos.getD [] else []

/-- The world the `catch` block of `handleSearch` leaves: the error toast and
the empty state of a failed search. -/
def searchFailed (w : World) : World :=
  showEmptyState (some "Arama yapılamadı") (some "❌")
    (showToast "Arama sırasında hata oluştu" "error" w)

/-- The world `handleSearch` builds from two resolved responses before it
chooses the tab: both lists are stored in `state`, both tab counts are
written and the tabs are shown. -/
def searchStored (ir : ImagesResponse) (vr : VideosResponse) (w : World) : World :=
  { w with
    state := { w.state with
      searchResultImages := some ir.list
      searchResultVideos := some vr.list }
    dom := { w.dom with
      tabImageCount := toString ir.list.length
      tabVideoCount := toString vr.list.length
      searchTabsHidden := false } }

/-- The constant `selectedImageData` of `downloadSelected`: the displayed
entities whose id is selected. -/
def selectedImageData (w : World) : List Entity :=
  w.state.images.filter fun img => decide (img.selectionId ∈ w.state.selectedImages)

/-- The constant `category` of `downloadSelected`: the expression
`state.currentCategory || 'diger'`. -/
def batchCategory (w : World) : String :=
  if truthyStr w.state.currentCategory then w.state.currentCategory.getD "" else "diger"

/-- The world in which the batch request for the four selected entities of
`fourSelectedWorld` is outstanding. -/
def batchRequestedWorld : World :=
  downloadSelectedRequest fourSelectedWorld

/-- A batch response the backend reports as unsuccessful. -/
def failedBatchResult : BatchResult :=
  { success := false, downloaded := 0, skipped := 0, failed := 4, total := 4 }

/-- The batch response of the scenario: three downloaded, one skipped, none
failed. -/
def scenarioBatchResult : BatchResult :=
  { success := true, downloaded := 3, skipped := 1, failed := 0, total := 4 }

/-- The start-up world of a document whose empty state carries the placeholder
text `Görsel yok`; the markup, and with it the placeholder text, is not part
of the sources. -/
def placeholderWorld : World :=
  { initialWorld with
    dom := { exampleDom with
      emptyState := some { hidden := false, message := "Görsel yok", icon := defaultEmptyIcon } } }

/-- The world after a search for `obscure_term_x` in `placeholderWorld` has
resolved with no image and no video. -/
def placeholderNoResultWorld : World :=
  handleSearchResume (imagesResponse []) (videosResponse [])
    (handleSearchRequest (typeSearch "obscure_term_x" placeholderWorld))

/-- A second category of the sidebar. -/
def otherCategory : Category :=
  { slug := "planes", name := "Planes" }

/-- The world in which the user has selected `exampleCategory` and then
`otherCategory` before either response has arrived: both loads are
outstanding and `otherCategory` is the current category. -/
def twoLoadsWorld : World :=
  selectCategoryRequest otherCategory (selectCategoryRequest exampleCategory initialWorld)

/-- The world that displays one video, rendered by `renderVideos` in the
start-up document. -/
def oneVideoWorld : World :=
  renderVideos [exampleVideo "v"] initialWorld

/-! ## api.js: image search -/

/-- The call of `request` that `ApiClient.searchImages` makes: the path and the
entries of its `URLSearchParams` object, in order, before `toString` writes
them into the query string. -/
structure SearchCall where
  path : String
  params : List (String × String)
  deriving DecidableEq, Repr

/-- The method `ApiClient.searchImages(query, options)` of api.js, for options
whose `limit` is an integer, whose `minWidth` is a number as `parseInt` returns
it and whose `category` is `null` or a string, as `handleSearch` passes them.
The operator `||` replaces a falsy number, zero or `NaN`, by the default, and
`URLSearchParams` converts the numbers to strings with `Number::toString`. -/
def ApiClient.searchImages (query : String) (limit : Int) (minWidth : JsNumber)
    (category : Option String) : SearchCall :=
  { path := "/search"
    params :=
      [("q", query),
       ("limit", intToJsString (if limit != 0 then limit else 50)),
       ("min_width", (if minWidth.truthy then minWidth else .int 800).toJsString)] ++
      (if truthyStr category then [("category", category.getD "")] else []) }

/-- The call of `request` behind a logged call of `api.searchImages`. -/
def Request.searchCall : Request → Option SearchCall
  | .searchImages query limit minWidth category =>
    some (ApiClient.searchImages query limit minWidth category)
  | _ => none

/-- The world in which a search for `tank` is outstanding and the user then
picks the width 0 in the width select, which repeats the search. -/
def zeroWidthWorld : World :=
  changeMinWidth (.int 0) (searchingWorld "tank")

/-- The world in which a search for `tank` is outstanding and the width select
then holds a value that does not start with digits, for which `parseInt`
returns `NaN`. -/
def nanWidthWorld : World :=
  changeMinWidth .nan (searchingWorld "tank")

/-! # Theorems -/

/-! ## Basic facts about the selection handlers -/

@[simp] theorem updateSelectionUI_state (w : World) : (updateSelectionUI w).state = w.state := rfl

@[simp] theorem hideEmptyState_state (w : World) : (hideEmptyState w).state = w.state := rfl

@[simp] theorem showEmptyState_state (m i : Option String) (w : World) :
    (showEmptyState m i w).state = w.state := rfl

@[simp] theorem showToast_state (m t : String) (w : World) : (showToast m t w).state = w.state := rfl

@[simp] theorem renderImages_state (images : List Entity) (w : World) :
    (renderImages images w).state = w.state := rfl

@[simp] theorem renderVideos_state (videos : List Video) (w : World) :
    (renderVideos videos w).state = w.state := rfl

theorem toggleImageSelection_selected (idx : Nat) (w : World) (card : Card)
    (h : w.dom.grid.get? idx = some card) :
    (toggleImageSelection idx w).state.selectedImages =
      if card.datasetImageId ∈ w.state.selectedImages then
        w.state.selectedImages.erase card.datasetImageId
      else insert card.datasetImageId w.state.selectedImages := by
  unfold toggleImageSelection
  rw [h]
  by_cases hm : card.datasetImageId ∈ w.state.selectedImages <;> simp [hm]

theorem toggleImageSelection_grid_get (idx : Nat) (w : World) (card : Card)
    (h : w.dom.grid.get? idx = some card) :
    ∃ card', (toggleImageSelection idx w).dom.grid.get? idx = some card' ∧
      card'.datasetImageId = card.datasetImageId := by
  have hlt : idx < w.dom.grid.length := by
    rcases Nat.lt_or_ge idx w.dom.grid.length with hl | hl
    · exact hl
    · rw [List.get?_eq_none.mpr hl] at h
      cases h
  unfold toggleImageSelection
  rw [h]
  by_cases hm : card.datasetImageId ∈ w.state.selectedImages
  · refine ⟨{ card with selected := false }, ?_, rfl⟩
    simp [hm, updateSelectionUI, hlt]
  · refine ⟨{ card with selected := true }, ?_, rfl⟩
    simp [hm, updateSelectionUI, hlt]

theorem foldl_insert_selectionId (images : List Entity) (S : Finset JsVal) :
    images.foldl (fun acc image => insert image.selectionId acc) S =
      S ∪ (images.map Entity.selectionId).toFinset := by
  induction images generalizing S with
  | nil => simp
  | cons image rest ih =>
    simp only [List.foldl_cons, List.map_cons, List.toFinset_cons, ih]
    ext x
    simp only [Finset.mem_union, Finset.mem_insert]
    tauto

theorem changeSelectAll_true_selected (w : World) :
    (changeSelectAll true w).state.selectedImages =
      w.state.selectedImages ∪ (w.state.images.map Entity.selectionId).toFinset := by
  simp [changeSelectAll, toggleSelectAll, foldl_insert_selectionId]

theorem changeSelectAll_false_selected (w : World) :
    (changeSelectAll false w).state.selectedImages = ∅ := by
  simp [changeSelectAll, toggleSelectAll]

theorem initialWorld_reachable : Reachable initialWorld :=
  Reachable.init initialWorld rfl

theorem oneSelectedWorld_reachable : Reachable oneSelectedWorld :=
  Reachable.step (.toggleImageSelection 0) _
    (Reachable.step (.loadCategoryImagesSettled (imagesResponse [exampleEntity "a"])) _
      initialWorld_reachable)

theorem staleSelectionWorld_reachable : Reachable staleSelectionWorld :=
  Reachable.step (.loadCategoryImagesSettled (imagesResponse [exampleEntity "b"])) _
    oneSelectedWorld_reachable

/-! ## C1 -/

/-- C1: `toggleImageSelection` on a card of the grid whose `dataset.imageId` is
`i` flips the membership of `i` in `state.selectedImages`: when `i` is selected
the result is the selection without `i`, when it is not the result is the
selection with `i` added, and the membership of every other id is unchanged. -/
theorem toggleImageSelection_flips (w : World) (idx : Nat) (card : Card)
    (hcard : w.dom.grid.get? idx = some card) :
    (card.datasetImageId ∈ w.state.selectedImages →
        (toggleImageSelection idx w).state.selectedImages =
            w.state.selectedImages.erase card.datasetImageId ∧
          card.datasetImageId ∉ (toggleImageSelection idx w).state.selectedImages) ∧
    (card.datasetImageId ∉ w.state.selectedImages →
        (toggleImageSelection idx w).state.selectedImages =
            insert card.datasetImageId w.state.selectedImages ∧
          card.datasetImageId ∈ (toggleImageSelection idx w).state.selectedImages) ∧
    (∀ j : JsVal, j ≠ card.datasetImageId →
        (j ∈ (toggleImageSelection idx w).state.selectedImages ↔
          j ∈ w.state.selectedImages)) := by
  rw [toggleImageSelection_selected idx w card hcard]
  refine ⟨fun hin => ?_, fun hout => ?_, fun j hj => ?_⟩
  · simp [hin]
  · simp [hout]
  · by_cases hm : card.datasetImageId ∈ w.state.selectedImages <;> simp [hm, hj]

/-- C1, at the grid of one card `a` with nothing selected: the card is in the
grid, and toggling it selects `a`. -/
theorem toggleImageSelection_flips_witness :
    (exampleWorld [exampleEntity "a"] ∅).dom.grid.get? 0 =
        some (createImageCard (exampleEntity "a") false) ∧
      (toggleImageSelection 0 (exampleWorld [exampleEntity "a"] ∅)).state.selectedImages =
        insert (JsVal.str "a") ∅ :=
  ⟨by decide,
   ((toggleImageSelection_flips (exampleWorld [exampleEntity "a"] ∅) 0
      (createImageCard (exampleEntity "a") false) (by decide)).2.1 (by decide)).1⟩

/-! ## C2 -/

/-- C2: toggling the same card twice in a row restores `state.selectedImages`:
for every world and every card position, two applications of
`toggleImageSelection` give the selection the world started with. -/
theorem toggleImageSelection_twice (w : World) (idx : Nat) :
    (toggleImageSelection idx (toggleImageSelection idx w)).state.selectedImages =
      w.state.selectedImages := by
  cases hget : w.dom.grid.get? idx with
  | none =>
    have h1 : toggleImageSelection idx w = w := by
      unfold toggleImageSelection
      rw [hget]
    rw [h1, h1]
  | some card =>
    obtain ⟨card', hget', hid⟩ := toggleImageSelection_grid_get idx w card hget
    rw [toggleImageSelection_selected idx _ card' hget', hid,
      toggleImageSelection_selected idx w card hget]
    by_cases hm : card.datasetImageId ∈ w.state.selectedImages
    · simp [hm, Finset.insert_erase]
    · simp [hm, Finset.erase_insert]

/-! ## C3 -/

/-- C3 fails as stated.  A category response with the entity `a` is displayed,
the user ticks `a`, and a second category response with the entity `b` replaces
the list.  Checking select-all then gives a selection that is not the set of
ids of the displayed list: `a` is still selected and is not an id of the
list. -/
theorem selectAll_replaces_counterexample :
    (changeSelectAll true staleSelectionWorld).state.selectedImages ≠
        (staleSelectionWorld.state.images.map Entity.selectionId).toFinset ∧
      JsVal.str "a" ∈ (changeSelectAll true staleSelectionWorld).state.selectedImages ∧
      JsVal.str "a" ∉ (staleSelectionWorld.state.images.map Entity.selectionId).toFinset := by
  decide

/-- C3 (amended): `toggleSelectAll` with the checkbox checked adds the id of
every displayed entity to `state.selectedImages` and removes nothing: the
result is the union of the prior selection and the ids of the displayed list,
so every id of the list is selected, every id selected before stays selected,
and the result is exactly the set of ids of the list whenever the prior
selection held only ids of the list. -/
theorem selectAll_adds (w : World) :
    (changeSelectAll true w).state.selectedImages =
        w.state.selectedImages ∪ (w.state.images.map Entity.selectionId).toFinset ∧
      (∀ image ∈ w.state.images,
        image.selectionId ∈ (changeSelectAll true w).state.selectedImages) ∧
      (∀ j ∈ w.state.selectedImages, j ∈ (changeSelectAll true w).state.selectedImages) ∧
      (w.state.selectedImages ⊆ (w.state.images.map Entity.selectionId).toFinset →
        (changeSelectAll true w).state.selectedImages =
          (w.state.images.map Entity.selectionId).toFinset) := by
  rw [changeSelectAll_true_selected]
  refine ⟨rfl, fun image himg => ?_, fun j hj => ?_, fun hsub => ?_⟩
  · exact Finset.mem_union_right _ (List.mem_toFinset.mpr (List.mem_map_of_mem _ himg))
  · exact Finset.mem_union_left _ hj
  · exact Finset.union_eq_right.mpr hsub

/-- C3 (amended), at the world where `a` is displayed and selected: the prior
selection holds only ids of the list, and select-all gives exactly the ids of
the list. -/
theorem selectAll_adds_witness :
    oneSelectedWorld.state.selectedImages ⊆
        (oneSelectedWorld.state.images.map Entity.selectionId).toFinset ∧
      (changeSelectAll true oneSelectedWorld).state.selectedImages =
        (oneSelectedWorld.state.images.map Entity.selectionId).toFinset :=
  ⟨by decide, (selectAll_adds oneSelectedWorld).2.2.2 (by decide)⟩

/-! ## C4 -/

/-- C4: for every world, checking the select-all checkbox and then unchecking
it leaves `state.selectedImages` empty, so its size is 0, the select-all
checkbox is unchecked and the batch-download button is disabled. -/
theorem selectAll_then_clearAll (w : World) :
    (changeSelectAll false (changeSelectAll true w)).state.selectedImages = ∅ ∧
      (changeSelectAll false (changeSelectAll true w)).state.selectedImages.card = 0 ∧
      (changeSelectAll false (changeSelectAll true w)).dom.selectAllChecked = false ∧
      (changeSelectAll false (changeSelectAll true w)).dom.downloadSelectedBtnDisabled = true := by
  simp [changeSelectAll, toggleSelectAll, updateSelectionUI]

/-! ## C5 -/

theorem updateSelectionUI_synced (w : World) : SelectionUISynced (updateSelectionUI w) := by
  unfold SelectionUISynced updateSelectionUI
  by_cases h : w.state.selectedImages.card = 0
  · simp [h]
  · have hpos : 0 < w.state.selectedImages.card := Nat.pos_of_ne_zero h
    simp [h, hpos]

/-- C5: after every selection transition (`toggleImageSelection` on a card of
the grid, `toggleSelectAll`, the clearing after a batch download, and a
re-render through `renderImages` or `switchSearchTab`) the values written by
`updateSelectionUI` agree with the state: the badge shows the size of
`state.selectedImages`, the batch-download button is enabled iff that size is
positive, and the select-all checkbox is checked iff the size is positive and
equals the length of `state.images`. -/
theorem selection_ui_synced (w : World) :
    (∀ idx, idx < w.dom.grid.length → SelectionUISynced (toggleImageSelection idx w)) ∧
      SelectionUISynced (toggleSelectAll w) ∧
      (∀ result, SelectionUISynced (downloadSelectedTimeout result w)) ∧
      (∀ images, SelectionUISynced (renderImages images w)) ∧
      (∀ tabName, SelectionUISynced (switchSearchTab tabName w)) := by
  refine ⟨fun idx hidx => ?_, ?_, fun result => ?_, fun images => ?_, fun tabName => ?_⟩
  · unfold toggleImageSelection
    rw [List.get?_eq_get hidx]
    exact updateSelectionUI_synced _
  · exact updateSelectionUI_synced _
  · exact updateSelectionUI_synced _
  · exact updateSelectionUI_synced _
  · exact updateSelectionUI_synced _

/-- C5, at the world where `a` is displayed and selected: position 0 is a card
of the grid, and the derived values agree with the state after toggling it. -/
theorem selection_ui_synced_witness :
    0 < oneSelectedWorld.dom.grid.length ∧
      SelectionUISynced (toggleImageSelection 0 oneSelectedWorld) :=
  ⟨by decide, (selection_ui_synced oneSelectedWorld).1 0 (by decide)⟩

/-! ## C6 -/

theorem switchSearchTab_selected (tabName : String) (w : World) :
    (switchSearchTab tabName w).state.selectedImages = w.state.selectedImages := by
  unfold switchSearchTab
  simp only [updateSelectionUI_state]
  split_ifs <;> rfl

theorem switchSearchTab_category_query (tabName : String) (w : World) :
    (switchSearchTab tabName w).state.currentCategory = w.state.currentCategory ∧
      (switchSearchTab tabName w).state.currentQuery = w.state.currentQuery := by
  unfold switchSearchTab
  simp only [updateSelectionUI_state]
  split_ifs <;> exact ⟨rfl, rfl⟩

theorem loadCategoryImagesResume_selected (outcome : Outcome ImagesResponse) (w : World) :
    (loadCategoryImagesResume outcome w).state.selectedImages = w.state.selectedImages := by
  unfold loadCategoryImagesResume
  cases outcome with
  | resolved result => simp only; split_ifs <;> rfl
  | rejected => rfl

theorem loadDownloadedImagesResume_selected (outcome : Outcome DownloadedResponse) (w : World) :
    (loadDownloadedImagesResume outcome w).state.selectedImages = w.state.selectedImages := by
  unfold loadDownloadedImagesResume
  cases outcome with
  | resolved result =>
    simp only
    split_ifs
    · cases result.images with
      | none => rfl
      | some files => simp only; split_ifs <;> rfl
    · rfl
  | rejected => rfl

theorem clearSearch_selected (w : World) :
    (clearSearch w).state.selectedImages = w.state.selectedImages := by
  unfold clearSearch
  simp only
  split_ifs <;> rfl

/-- C6 fails as stated.  In `oneSelectedWorld` the entity `a` is displayed and
selected.  The success branch of `loadCategoryImages` with the single entity
`b` replaces the displayed list by `[b]`, and `a` is still in
`state.selectedImages` although it is not the id of an entity of the new
list. -/
theorem selection_scoped_counterexample :
    (loadCategoryImages "tanks" (imagesResponse [exampleEntity "b"]) oneSelectedWorld).state.images
        = [exampleEntity "b"] ∧
      JsVal.str "a" ∈
        (loadCategoryImages "tanks" (imagesResponse [exampleEntity "b"])
          oneSelectedWorld).state.selectedImages ∧
      JsVal.str "a" ∉
        ((loadCategoryImages "tanks" (imagesResponse [exampleEntity "b"])
          oneSelectedWorld).state.images.map Entity.selectionId).toFinset := by
  decide

/-- C6 (amended): the operations that replace the displayed list wholesale (the
success branch of `loadCategoryImages`, `switchSearchTab('images')`, the
success branch of `loadDownloadedImages`, `clearSearch` without a category) set
`state.images` to the new list and leave `state.selectedImages` as it was: every
id of the old selection is kept, those that are ids of the new list and those
that are not, and nothing is evicted.  The selection is also unchanged on every
other branch of these operations. -/
theorem list_replacement_keeps_selection (w : World) :
    (∀ slug outcome,
        (loadCategoryImages slug outcome w).state.selectedImages = w.state.selectedImages) ∧
      (∀ slug result, result.success = true →
        (loadCategoryImages slug (.resolved result) w).state.images = result.images.getD []) ∧
      (∀ tabName, (switchSearchTab tabName w).state.selectedImages = w.state.selectedImages) ∧
      (switchSearchTab "images" w).state.images = w.state.searchResultImages.getD [] ∧
      (∀ outcome,
        (loadDownloadedImages outcome w).state.selectedImages = w.state.selectedImages) ∧
      (∀ result files, result.success = true → result.images = some files →
        (loadDownloadedImages (.resolved result) w).state.images = files.map downloadedEntity) ∧
      (clearSearch w).state.selectedImages = w.state.selectedImages ∧
      (truthyStr w.state.currentCategory = false → (clearSearch w).state.images = []) := by
  refine ⟨fun slug outcome => ?_, fun slug result hs => ?_, fun tabName => ?_, ?_,
    fun outcome => ?_, fun result files hs hf => ?_, ?_, fun hc => ?_⟩
  · exact loadCategoryImagesResume_selected outcome _
  · simp only [loadCategoryImages, loadCategoryImagesResume, hs, if_true]
    split_ifs <;> rfl
  · exact switchSearchTab_selected tabName w
  · unfold switchSearchTab
    simp only [updateSelectionUI_state, if_true]
    split_ifs <;> rfl
  · exact loadDownloadedImagesResume_selected outcome _
  · simp only [loadDownloadedImages, loadDownloadedImagesResume, hs, hf, if_true]
    split_ifs <;> rfl
  · exact clearSearch_selected w
  · unfold clearSearch
    simp only [hc]
    rfl

/-- C6 (amended), at the world where `a` is displayed and selected and a
successful category response carries the single entity `b`: the list becomes
`[b]` and the selection is still the one before. -/
theorem list_replacement_keeps_selection_witness :
    (loadCategoryImages "tanks" (imagesResponse [exampleEntity "b"])
        oneSelectedWorld).state.selectedImages = oneSelectedWorld.state.selectedImages ∧
      (loadCategoryImages "tanks" (imagesResponse [exampleEntity "b"])
        oneSelectedWorld).state.images = [exampleEntity "b"] :=
  ⟨(list_replacement_keeps_selection oneSelectedWorld).1 "tanks" _,
   (list_replacement_keeps_selection oneSelectedWorld).2.1 "tanks"
      { success := true, images := some [exampleEntity "b"] } rfl⟩

/-! ## C7 -/

theorem handleSearchResume_category_query (imageResult : Outcome ImagesResponse)
    (videoResult : Outcome VideosResponse) (w : World) :
    (handleSearchResume imageResult videoResult w).state.currentCategory =
        w.state.currentCategory ∧
      (handleSearchResume imageResult videoResult w).state.currentQuery =
        w.state.currentQuery := by
  unfold handleSearchResume
  cases imageResult with
  | rejected => cases videoResult <;> exact ⟨rfl, rfl⟩
  | resolved imageResult =>
    cases videoResult with
    | rejected => exact ⟨rfl, rfl⟩
    | resolved videoResult =>
      simp only
      generalize (if imageResult.success = true then imageResult.images.getD [] else []) = images
      generalize (if videoResult.success = true then videoResult.videos.getD [] else []) = videos
      split_ifs
      · exact switchSearchTab_category_query _ _
      · exact switchSearchTab_category_query _ _
      · exact switchSearchTab_category_query _ _

theorem loadCategoryImagesResume_category_query (outcome : Outcome ImagesResponse) (w : World) :
    (loadCategoryImagesResume outcome w).state.currentCategory = w.state.currentCategory ∧
      (loadCategoryImagesResume outcome w).state.currentQuery = w.state.currentQuery := by
  unfold loadCategoryImagesResume
  cases outcome with
  | resolved result => simp only; split_ifs <;> exact ⟨rfl, rfl⟩
  | rejected => exact ⟨rfl, rfl⟩

theorem loadDownloadedImagesResume_category_query (outcome : Outcome DownloadedResponse)
    (w : World) :
    (loadDownloadedImagesResume outcome w).state.currentCategory = w.state.currentCategory ∧
      (loadDownloadedImagesResume outcome w).state.currentQuery = w.state.currentQuery := by
  unfold loadDownloadedImagesResume
  cases outcome with
  | resolved result =>
    simp only
    split_ifs
    · cases result.images with
      | none => exact ⟨rfl, rfl⟩
      | some files => simp only; split_ifs <;> exact ⟨rfl, rfl⟩
    · exact ⟨rfl, rfl⟩
  | rejected => exact ⟨rfl, rfl⟩

theorem loadVideosResume_category_query (outcome : Outcome VideosResponse) (w : World) :
    (loadVideosResume outcome w).state.currentCategory = w.state.currentCategory ∧
      (loadVideosResume outcome w).state.currentQuery = w.state.currentQuery := by
  unfold loadVideosResume
  cases outcome with
  | resolved result =>
    simp only
    split_ifs
    · cases result.videos with
      | none => exact ⟨rfl, rfl⟩
      | some videos => simp only; split_ifs <;> exact ⟨rfl, rfl⟩
    · exact ⟨rfl, rfl⟩
  | rejected => exact ⟨rfl, rfl⟩

theorem toggleImageSelection_category_query (idx : Nat) (w : World) :
    (toggleImageSelection idx w).state.currentCategory = w.state.currentCategory ∧
      (toggleImageSelection idx w).state.currentQuery = w.state.currentQuery := by
  unfold toggleImageSelection
  cases w.dom.grid.get? idx with
  | none => exact ⟨rfl, rfl⟩
  | some card => simp only; split_ifs <;> exact ⟨rfl, rfl⟩

theorem changeSelectAll_category_query (checked : Bool) (w : World) :
    (changeSelectAll checked w).state.currentCategory = w.state.currentCategory ∧
      (changeSelectAll checked w).state.currentQuery = w.state.currentQuery := by
  unfold changeSelectAll toggleSelectAll
  cases checked <;> exact ⟨rfl, rfl⟩

theorem handleImageGridClick_category_query (target : Option Nat) (onCheckbox : Bool)
    (w : World) :
    (handleImageGridClick target onCheckbox w).state.currentCategory =
        w.state.currentCategory ∧
      (handleImageGridClick target onCheckbox w).state.currentQuery = w.state.currentQuery := by
  unfold handleImageGridClick
  cases target with
  | none => exact ⟨rfl, rfl⟩
  | some idx =>
    simp only
    cases w.dom.grid.get? idx with
    | none => exact ⟨rfl, rfl⟩
    | some card =>
      simp only
      split_ifs
      · exact toggleImageSelection_category_query idx w
      · unfold openImageModal
        cases card.imageData <;> exact ⟨rfl, rfl⟩

theorem exclusive_of_eq {w w' : World}
    (h : w'.state.currentCategory = w.state.currentCategory ∧
      w'.state.currentQuery = w.state.currentQuery)
    (hw : CategoryQueryExclusive w) : CategoryQueryExclusive w' := by
  unfold CategoryQueryExclusive at *
  rw [h.1, h.2]
  exact hw

theorem step_exclusive (a : Action) (w : World) (hw : CategoryQueryExclusive w) :
    CategoryQueryExclusive (step a w) := by
  cases a with
  | typeSearch text => exact hw
  | handleSearch =>
    simp only [step, handleSearchRequest]
    split_ifs
    · exact hw
    · simp [CategoryQueryExclusive]
  | handleSearchSettled imageResult videoResult =>
    exact exclusive_of_eq (handleSearchResume_category_query _ _ w) hw
  | selectCategory category => simp [step, selectCategoryRequest, loadCategoryImagesRequest,
      CategoryQueryExclusive]
  | loadCategoryImagesSettled outcome =>
    exact exclusive_of_eq (loadCategoryImagesResume_category_query _ w) hw
  | clearSearch =>
    simp only [step, clearSearch]
    split_ifs <;> simp [CategoryQueryExclusive, loadCategoryImagesRequest]
  | loadDownloadedImages => simp [step, loadDownloadedImagesRequest, CategoryQueryExclusive]
  | loadDownloadedImagesSettled outcome =>
    exact exclusive_of_eq (loadDownloadedImagesResume_category_query _ w) hw
  | loadFavorites => simp [step, loadFavorites, CategoryQueryExclusive]
  | loadVideos query => simp [step, loadVideosRequest, CategoryQueryExclusive]
  | loadVideosSettled outcome =>
    exact exclusive_of_eq (loadVideosResume_category_query _ w) hw
  | toggleImageSelection idx =>
    exact exclusive_of_eq (toggleImageSelection_category_query idx w) hw
  | changeSelectAll checked =>
    exact exclusive_of_eq (changeSelectAll_category_query checked w) hw
  | switchSearchTab tabName =>
    exact exclusive_of_eq (switchSearchTab_category_query tabName w) hw
  | downloadSelected =>
    simp only [step, downloadSelectedRequest]
    split_ifs <;> exact hw
  | downloadSelectedSettled outcome =>
    simp only [step, downloadSelectedResume]
    cases outcome with
    | resolved result => simp only; split_ifs <;> exact hw
    | rejected => exact hw
  | downloadSelectedTimeout result => exact hw
  | handleImageGridClick target onCheckbox =>
    exact exclusive_of_eq (handleImageGridClick_category_query target onCheckbox w) hw
  | quickSearch query =>
    simp only [step, quickSearch, handleSearchRequest]
    split_ifs
    · exact hw
    · simp [CategoryQueryExclusive]
  | changeMinWidth value =>
    simp only [step, changeMinWidth, handleSearchRequest]
    split_ifs
    · exact hw
    · simp [CategoryQueryExclusive]
    · exact hw

/-- C7: category and query are mutually exclusive.  `selectCategory` leaves
`state.currentQuery` empty (with the requested category set), `handleSearch`
with a non-blank query leaves `state.currentCategory` null (with the trimmed
query set), and in every world reachable from the initial state through the
events of the client (among them `selectCategory`, `handleSearch`,
`clearSearch`, `loadDownloadedImages`, `loadFavorites` and `loadVideos`, with
their continuations run at any later time) it never holds that
`currentCategory` is non-null and `currentQuery` is non-empty at once. -/
theorem category_query_exclusive :
    (∀ (category : Category) (outcome : Outcome ImagesResponse) (w : World),
        (selectCategory category outcome w).state.currentQuery = "" ∧
          (selectCategory category outcome w).state.currentCategory = some category.slug) ∧
      (∀ (imageResult : Outcome ImagesResponse) (videoResult : Outcome VideosResponse)
          (w : World), jsTrim w.dom.searchInputValue ≠ "" →
        (handleSearch imageResult videoResult w).state.currentCategory = none ∧
          (handleSearch imageResult videoResult w).state.currentQuery =
            jsTrim w.dom.searchInputValue) ∧
      (∀ w : World, Reachable w →
        ¬ (w.state.currentCategory ≠ none ∧ w.state.currentQuery ≠ "")) := by
  refine ⟨fun category outcome w => ?_, fun imageResult videoResult w hq => ?_, fun w hw => ?_⟩
  · obtain ⟨h1, h2⟩ := loadCategoryImagesResume_category_query outcome
      (selectCategoryRequest category w)
    unfold selectCategory
    rw [h1, h2]
    exact ⟨rfl, rfl⟩
  · obtain ⟨h1, h2⟩ := handleSearchResume_category_query imageResult videoResult
      (handleSearchRequest w)
    unfold handleSearch
    rw [if_neg hq, h1, h2]
    unfold handleSearchRequest
    simp only [if_neg hq]
    exact ⟨trivial, trivial⟩
  · induction hw with
    | init w h =>
      rw [h]
      simp [initialAppState]
    | step a w _ ih => exact step_exclusive a w ih

/-- C7, at a search for `tank` typed after a category has been selected: the
query is non-blank, the search leaves the category null, and the world right
after the category was selected, which is reachable, has a category and an
empty query. -/
theorem category_query_exclusive_witness :
    jsTrim (typeSearch " tank " (selectCategoryRequest exampleCategory
        initialWorld)).dom.searchInputValue ≠ "" ∧
      (handleSearch .rejected .rejected (typeSearch " tank "
        (selectCategoryRequest exampleCategory initialWorld))).state.currentCategory = none ∧
      (handleSearch .rejected .rejected (typeSearch " tank "
        (selectCategoryRequest exampleCategory initialWorld))).state.currentQuery = "tank" ∧
      (selectCategoryRequest exampleCategory initialWorld).state.currentCategory = some "tanks" ∧
      ¬ ((selectCategoryRequest exampleCategory initialWorld).state.currentCategory ≠ none ∧
        (selectCategoryRequest exampleCategory initialWorld).state.currentQuery ≠ "") :=
  ⟨by decide,
   (category_query_exclusive.2.1 .rejected .rejected _ (by decide)).1,
   by decide,
   by decide,
   category_query_exclusive.2.2 _
    (Reachable.step (.selectCategory exampleCategory) _ initialWorld_reachable)⟩

/-! ## C8 -/

theorem createImageCard_datasetImageId (image : Entity) (sel : Bool)
    (h : image.selectionId.isStr = true) :
    (createImageCard image sel).datasetImageId = image.selectionId := by
  unfold createImageCard Card.datasetImageId
  cases hid : image.selectionId with
  | str s => rfl
  | undefined => rw [hid] at h; cases h
  | null => rw [hid] at h; cases h
  | num n => rw [hid] at h; cases h

theorem renderImages_grid (E : List Entity) (w : World) :
    (renderImages E w).dom.grid =
      E.map fun image =>
        createImageCard image (decide (image.selectionId ∈ w.state.selectedImages)) := rfl

/-- C8: for every entity list `E` whose ids are strings and every selection
`S`, `renderImages` produces exactly one card per entity of `E`, in input
order (the card at each position carries the entity and the id of the entity
at that position), and the set of ids of the cards marked selected is exactly
`S ∩ ids(E)`, where the id of an entity is `source_id || id`.  The ids need
not be distinct. -/
theorem renderImages_cards (E : List Entity) (w : World)
    (hstr : ∀ e ∈ E, e.selectionId.isStr = true) :
    (renderImages E w).dom.grid.length = E.length ∧
      (renderImages E w).dom.grid.map Card.imageData = E.map some ∧
      (renderImages E w).dom.grid.map Card.datasetImageId = E.map Entity.selectionId ∧
      (((renderImages E w).dom.grid.filter fun card => card.selected).map
          Card.datasetImageId).toFinset =
        w.state.selectedImages ∩ (E.map Entity.selectionId).toFinset := by
  rw [renderImages_grid]
  refine ⟨by simp, ?_, ?_, ?_⟩
  · rw [List.map_map]
    exact List.map_congr_left fun e _ => rfl
  · rw [List.map_map]
    exact List.map_congr_left fun e he => createImageCard_datasetImageId e _ (hstr e he)
  · ext v
    simp only [List.mem_toFinset, List.mem_map, List.mem_filter, Finset.mem_inter]
    constructor
    · rintro ⟨card, ⟨⟨e, he, rfl⟩, hsel⟩, rfl⟩
      rw [createImageCard_datasetImageId e _ (hstr e he)]
      have hmem : e.selectionId ∈ w.state.selectedImages := by
        simpa [createImageCard] using hsel
      exact ⟨hmem, e, he, rfl⟩
    · rintro ⟨hv, e, he, rfl⟩
      refine ⟨createImageCard e (decide (e.selectionId ∈ w.state.selectedImages)),
        ⟨⟨e, he, rfl⟩, ?_⟩, createImageCard_datasetImageId e _ (hstr e he)⟩
      simp [createImageCard, hv]

/-- C8, at the list `[a, b]` with `a` selected: both ids are strings, two cards
are produced, and the selected cards are exactly the card of `a`. -/
theorem renderImages_cards_witness :
    (∀ e ∈ [exampleEntity "a", exampleEntity "b"], e.selectionId.isStr = true) ∧
      (renderImages [exampleEntity "a", exampleEntity "b"] oneSelectedWorld).dom.grid.length
        = 2 ∧
      (((renderImages [exampleEntity "a", exampleEntity "b"] oneSelectedWorld).dom.grid.filter
          fun card => card.selected).map Card.datasetImageId).toFinset =
        oneSelectedWorld.state.selectedImages ∩
          ([exampleEntity "a", exampleEntity "b"].map Entity.selectionId).toFinset :=
  ⟨by decide,
   (renderImages_cards [exampleEntity "a", exampleEntity "b"] oneSelectedWorld (by decide)).1,
   (renderImages_cards [exampleEntity "a", exampleEntity "b"] oneSelectedWorld
      (by decide)).2.2.2⟩

/-! ## C9 -/

theorem unitIndexOf_spec (b : Nat) (hb : 0 < b) :
    unitIndexOf b ≤ 3 ∧ 1024 ^ unitIndexOf b ≤ b ∧
      (unitIndexOf b < 3 → b < 1024 ^ (unitIndexOf b + 1)) := by
  unfold unitIndexOf
  refine ⟨Nat.min_le_right _ _, ?_, fun hlt => ?_⟩
  · exact Nat.pow_le_of_le_log (Nat.pos_iff_ne_zero.mp hb) (Nat.min_le_left _ _)
  · have hlog : Nat.log 1024 b < 3 := by omega
    rw [Nat.min_eq_left (Nat.le_of_lt hlog)]
    exact Nat.lt_pow_succ_log_self (by norm_num) b

/-- The loop of `formatFileSize` leaves through its exit test, not for lack of
fuel: started at `unitIndex = 0` with `units.length - 1` units of fuel, the
pair it returns fails the loop condition. -/
theorem formatFileSizeLoop_exit (size : Size) :
    ((formatFileSizeLoop (units.length - 1) size 0).1.ge1024 &&
      decide ((formatFileSizeLoop (units.length - 1) size 0).2 < units.length - 1)) = false := by
  simp only [units, List.length_cons, List.length_nil, Nat.reduceAdd, Nat.reduceSub,
    formatFileSizeLoop]
  split_ifs <;> simp_all

theorem formatFileSizeLoop_nat (b : Nat) (hb : 0 < b) :
    formatFileSizeLoop (units.length - 1) { num := (b : Int), den := 1 } 0 =
      ({ num := (b : Int), den := 1024 ^ unitIndexOf b }, unitIndexOf b) := by
  obtain ⟨h3, hle, hlt⟩ := unitIndexOf_spec b hb
  generalize unitIndexOf b = k at h3 hle hlt
  simp only [units, List.length_cons, List.length_nil, Nat.reduceAdd, Nat.reduceSub,
    formatFileSizeLoop, Size.ge1024, Size.div1024]
  interval_cases k <;> norm_num at hle hlt <;> simp <;> split_ifs <;>
    first
    | rfl
    | omega

theorem repr_digit_length : ∀ d < 10, (Nat.repr d).length = 1 := by decide

theorem tenthsOf_nearest (b k : Nat) :
    2 * 1024 ^ k * tenthsOf b k ≤ 20 * b + 1024 ^ k ∧
      20 * b + 1024 ^ k < 2 * 1024 ^ k * (tenthsOf b k + 1) := by
  unfold tenthsOf
  have hpos : 0 < 2 * 1024 ^ k := by positivity
  exact ⟨Nat.mul_div_le _ _, Nat.lt_mul_div_succ _ hpos⟩

/-- For a positive byte count below `10^21 * 1024^3` the scaled value is below
`10^21`, where `toFixed(1)` writes its digits. -/
theorem scaled_below_threshold (b : Nat) (hb : 0 < b) (hlt : b < 10 ^ 21 * 1024 ^ 3) :
    ¬ (10 ^ 21 * 1024 ^ unitIndexOf b ≤ b) := by
  obtain ⟨h3, -, hk⟩ := unitIndexOf_spec b hb
  generalize unitIndexOf b = k at h3 hk
  interval_cases k <;> norm_num at hk ⊢ <;> omega

/-- From `10^21 * 1024^3` on the unit index is 3. -/
theorem unitIndexOf_large (b : Nat) (hge : 10 ^ 21 * 1024 ^ 3 ≤ b) : unitIndexOf b = 3 := by
  unfold unitIndexOf
  have h : 3 ≤ Nat.log 1024 b :=
    Nat.le_log_of_pow_le (by norm_num) (le_trans (by norm_num) hge)
  omega

/-- C9, amended: for every positive byte count `b` below `10^21 * 1024^3`,
`formatFileSize(b)` is the value `b / 1024^k` written with exactly one decimal
digit, then a space, then the `k`-th entry of `B, KB, MB, GB`, where `k` is the
number of times `b` can be divided by 1024 while the running value is still at
least 1024, capped at 3 (so `1024^k ≤ b`, and `b < 1024^(k+1)` unless `k = 3`).
The written value is `n / 10` for the integer `n` nearest to `10 * b / 1024^k`
(the larger on a tie): its integer part, a point, and the single digit
`n % 10`.  From `10^21 * 1024^3` bytes on the unit is still `GB`, and the value
`b / 1024^3`, which is `10^21` or more, is written as `Number::toString` writes
it, without a decimal digit.  The loop leaves through its exit test.  In
particular `formatFileSize(1536) = "1.5 KB"`, and `2^100` bytes are written
`1.1805916207174113e+21 GB`. -/
theorem formatFileSize_scaled (b : Nat) (hb : 0 < b) :
    (b < 10 ^ 21 * 1024 ^ 3 →
        formatFileSize (.num (b : Int)) =
          Nat.repr (tenthsOf b (unitIndexOf b) / 10) ++ "." ++
            Nat.repr (tenthsOf b (unitIndexOf b) % 10) ++ " " ++
            units.getD (unitIndexOf b) "undefined") ∧
      (10 ^ 21 * 1024 ^ 3 ≤ b →
        formatFileSize (.num (b : Int)) = natToJsString (b / 1024 ^ 3) ++ " " ++ "GB") ∧
      unitIndexOf b < units.length ∧
      1024 ^ unitIndexOf b ≤ b ∧
      (unitIndexOf b < 3 → b < 1024 ^ (unitIndexOf b + 1)) ∧
      (2 * 1024 ^ unitIndexOf b * tenthsOf b (unitIndexOf b) ≤ 20 * b + 1024 ^ unitIndexOf b ∧
        20 * b + 1024 ^ unitIndexOf b <
          2 * 1024 ^ unitIndexOf b * (tenthsOf b (unitIndexOf b) + 1)) ∧
      (Nat.repr (tenthsOf b (unitIndexOf b) % 10)).length = 1 ∧
      ((formatFileSizeLoop (units.length - 1) { num := (b : Int), den := 1 } 0).1.ge1024 &&
        decide ((formatFileSizeLoop (units.length - 1) { num := (b : Int), den := 1 } 0).2 <
          units.length - 1)) = false ∧
      formatFileSize (.num 1536) = "1.5 KB" ∧
      formatFileSize (.num ((2 ^ 100 : Nat) : Int)) = "1.1805916207174113e+21 GB" := by
  obtain ⟨h3, hle, hlt⟩ := unitIndexOf_spec b hb
  have hne : (b : Int) ≠ 0 := by omega
  have hnn : ¬ ((b : Int) < 0) := by omega
  refine ⟨fun hsmall => ?_, fun hlarge => ?_, ?_, hle, hlt, tenthsOf_nearest b _,
    repr_digit_length _ (Nat.mod_lt _ (by norm_num)), formatFileSizeLoop_exit _, by decide,
    by decide⟩
  · have hth := scaled_below_threshold b hb hsmall
    simp only [formatFileSize, hne, if_false, formatFileSizeLoop_nat b hb, Size.toFixed1, hnn,
      toFixedDigits, tenthsOf, Int.natAbs_ofNat, hth, String.empty_append]
  · have hk := unitIndexOf_large b hlarge
    simp only [formatFileSize, hne, if_false, formatFileSizeLoop_nat b hb, Size.toFixed1, hnn,
      Int.natAbs_ofNat, hk, hlarge, if_true, String.empty_append]
    rfl
  · simp only [units, List.length_cons, List.length_nil]
    omega

/-- C9, at `b = 1536` and at `b = 2^100`: 1536 is positive and below the
threshold, and the string is `"1.5 KB"`, which is the one-decimal form at
`b = 1536`; `2^100` is beyond the threshold and the string is the
`Number::toString` form of `2^70`. -/
theorem formatFileSize_scaled_witness :
    (0 < 1536 ∧ 1536 < 10 ^ 21 * 1024 ^ 3) ∧
      formatFileSize (.num ((1536 : Nat) : Int)) =
        Nat.repr (tenthsOf 1536 (unitIndexOf 1536) / 10) ++ "." ++
          Nat.repr (tenthsOf 1536 (unitIndexOf 1536) % 10) ++ " " ++
          units.getD (unitIndexOf 1536) "undefined" ∧
      formatFileSize (.num ((1536 : Nat) : Int)) = "1.5 KB" ∧
      10 ^ 21 * 1024 ^ 3 ≤ 2 ^ 100 ∧
      formatFileSize (.num ((2 ^ 100 : Nat) : Int)) = natToJsString (2 ^ 100 / 1024 ^ 3) ++ " " ++ "GB" :=
  ⟨⟨by decide, by decide⟩, (formatFileSize_scaled 1536 (by decide)).1 (by decide), by decide,
   by decide, (formatFileSize_scaled (2 ^ 100) (by decide)).2.1 (by decide)⟩

/-- C9 as stated fails at `b = 2^100` bytes: the unit index is 3 and the value
`2^100 / 1024^3 = 2^70` is above `10^21`, so `toFixed(1)` writes it in
exponent notation.  The string is `"1.1805916207174113e+21 GB"`, not the
value with one decimal digit, `"1180591620717411303424.0 GB"`. -/
theorem formatFileSize_scaled_counterexample :
    formatFileSize (.num ((2 ^ 100 : Nat) : Int)) = "1.1805916207174113e+21 GB" ∧
      unitIndexOf (2 ^ 100) = 3 ∧
      Nat.repr (tenthsOf (2 ^ 100) 3 / 10) ++ "." ++ Nat.repr (tenthsOf (2 ^ 100) 3 % 10) ++
          " " ++ units.getD 3 "undefined" = "1180591620717411303424.0 GB" ∧
      formatFileSize (.num ((2 ^ 100 : Nat) : Int)) ≠
        Nat.repr (tenthsOf (2 ^ 100) 3 / 10) ++ "." ++ Nat.repr (tenthsOf (2 ^ 100) 3 % 10) ++
          " " ++ units.getD 3 "undefined" :=
  ⟨by decide, unitIndexOf_large _ (by norm_num), by decide, by decide⟩

/-! ## C10 -/

theorem formatFileSize_num_ne_empty (n : Int) (hn : n ≠ 0) : formatFileSize (.num n) ≠ "" := by
  intro h
  have hlen := congrArg String.length h
  simp only [formatFileSize, hn, if_false, String.length_append] at hlen
  have hsp : " ".length = 1 := rfl
  have hnil : "".length = 0 := rfl
  rw [hsp, hnil] at hlen
  omega

theorem formatFileSize_eq_empty_iff (bytes : JsNum) :
    formatFileSize bytes = "" ↔ bytes = .undefined ∨ bytes = .null ∨ bytes = .num 0 := by
  cases bytes with
  | undefined => simp [formatFileSize]
  | null => simp [formatFileSize]
  | num n =>
    by_cases hn : n = 0
    · subst hn
      simp [formatFileSize]
    · simp [formatFileSize_num_ne_empty n hn, hn]

/-- C10: `formatFileSize` returns the empty string exactly when the byte count
is 0 or missing (`null` or `undefined`), and a non-empty string for every
non-zero number; in particular `formatFileSize(0) = ""`, and the card that
`createImageCard` builds has no file-size line exactly for such an entity. -/
theorem formatFileSize_empty :
    (∀ bytes : JsNum,
        formatFileSize bytes = "" ↔ bytes = .undefined ∨ bytes = .null ∨ bytes = .num 0) ∧
      (∀ n : Int, n ≠ 0 → formatFileSize (.num n) ≠ "") ∧
      formatFileSize (.num 0) = "" ∧
      (∀ (image : Entity) (isSelected : Bool),
        (createImageCard image isSelected).fileSize = none ↔
          image.file_size = .undefined ∨ image.file_size = .null ∨ image.file_size = .num 0) := by
  refine ⟨formatFileSize_eq_empty_iff, formatFileSize_num_ne_empty, by decide,
    fun image isSelected => ?_⟩
  rw [← formatFileSize_eq_empty_iff]
  simp [createImageCard]

/-- C10, at the byte counts 0 and 2048: the first gives the empty string and no
file-size line, the second a non-empty string. -/
theorem formatFileSize_empty_witness :
    formatFileSize (.num 0) = "" ∧
      (createImageCard (exampleEntity "a") false).fileSize = none ∧
      (2048 : Int) ≠ 0 ∧
      formatFileSize (.num 2048) ≠ "" ∧
      formatFileSize (.num 2048) = "2.0 KB" :=
  ⟨formatFileSize_empty.2.2.1,
   (formatFileSize_empty.2.2.2 (exampleEntity "a") false).mpr (Or.inl rfl),
   by decide,
   formatFileSize_empty.2.1 2048 (by decide),
   by decide⟩

/-! ## Facts about `switchSearchTab` and `handleSearchResume` -/

theorem switchSearchTab_frame (tabName : String) (w : World) :
    (switchSearchTab tabName w).requests = w.requests ∧
      (switchSearchTab tabName w).toasts = w.toasts ∧
      (switchSearchTab tabName w).timers = w.timers ∧
      (switchSearchTab tabName w).state.searchResultImages = w.state.searchResultImages ∧
      (switchSearchTab tabName w).state.searchResultVideos = w.state.searchResultVideos := by
  unfold switchSearchTab
  simp only [updateSelectionUI, showEmptyState, hideEmptyState]
  split_ifs <;> exact ⟨rfl, rfl, rfl, rfl, rfl⟩

theorem switchSearchTab_dom_frame (tabName : String) (w : World) :
    (switchSearchTab tabName w).dom.searchTabs =
        w.dom.searchTabs.map (fun t => { t with active := decide (t.tab = tabName) }) ∧
      (switchSearchTab tabName w).dom.tabImageCount = w.dom.tabImageCount ∧
      (switchSearchTab tabName w).dom.tabVideoCount = w.dom.tabVideoCount ∧
      (switchSearchTab tabName w).dom.searchTabsHidden = w.dom.searchTabsHidden := by
  unfold switchSearchTab
  simp only [updateSelectionUI, showEmptyState, hideEmptyState]
  split_ifs <;> exact ⟨rfl, rfl, rfl, rfl⟩

theorem switchSearchTab_images_state (w : World) :
    (switchSearchTab "images" w).state.images = w.state.searchResultImages.getD [] := by
  unfold switchSearchTab
  simp only [updateSelectionUI_state, if_true]
  split_ifs <;> rfl

theorem switchSearchTab_images_grid (w : World) (images : List Entity)
    (h : w.state.searchResultImages = some images) :
    (switchSearchTab "images" w).dom.grid =
      images.map fun image =>
        createImageCard image (decide (image.source_id ∈ w.state.selectedImages)) := by
  unfold switchSearchTab
  cases images with
  | nil => simp [updateSelectionUI, showEmptyState, hideEmptyState, h]
  | cons image rest => simp [updateSelectionUI, showEmptyState, hideEmptyState, h]

theorem switchSearchTab_videos_grid (w : World) (videos : List Video)
    (h : w.state.searchResultVideos = some videos) :
    (switchSearchTab "videos" w).dom.grid = videos.map createVideoCard := by
  unfold switchSearchTab
  cases videos with
  | nil => simp [updateSelectionUI, showEmptyState, hideEmptyState, h]
  | cons video rest => simp [updateSelectionUI, showEmptyState, hideEmptyState, h]

theorem handleSearchResume_rejected_left (videoResult : Outcome VideosResponse) (w : World) :
    handleSearchResume .rejected videoResult w = searchFailed w := by
  cases videoResult <;> rfl

theorem handleSearchResume_rejected_right (imageResult : Outcome ImagesResponse) (w : World) :
    handleSearchResume imageResult .rejected w = searchFailed w := by
  cases imageResult <;> rfl

theorem handleSearchResume_resolved (ir : ImagesResponse) (vr : VideosResponse) (w : World) :
    handleSearchResume (.resolved ir) (.resolved vr) w =
      if ir.list.length > 0 then switchSearchTab "images" (searchStored ir vr w)
      else if vr.list.length > 0 then switchSearchTab "videos" (searchStored ir vr w)
      else
        { showEmptyState (some "Sonuç bulunamadı") (some "🔍")
            (switchSearchTab "images" (searchStored ir vr w)) with
          dom := { (showEmptyState (some "Sonuç bulunamadı") (some "🔍")
            (switchSearchTab "images" (searchStored ir vr w))).dom with
              searchTabsHidden := true } } := rfl

theorem handleSearchResume_stored (ir : ImagesResponse) (vr : VideosResponse) (w : World) :
    (handleSearchResume (.resolved ir) (.resolved vr) w).state.searchResultImages =
        some ir.list ∧
      (handleSearchResume (.resolved ir) (.resolved vr) w).state.searchResultVideos =
        some vr.list ∧
      (handleSearchResume (.resolved ir) (.resolved vr) w).dom.tabImageCount =
        toString ir.list.length ∧
      (handleSearchResume (.resolved ir) (.resolved vr) w).dom.tabVideoCount =
        toString vr.list.length ∧
      (handleSearchResume (.resolved ir) (.resolved vr) w).requests = w.requests := by
  rw [handleSearchResume_resolved]
  split_ifs
  · obtain ⟨h1, -, -, h4, h5⟩ := switchSearchTab_frame "images" (searchStored ir vr w)
    obtain ⟨-, d2, d3, -⟩ := switchSearchTab_dom_frame "images" (searchStored ir vr w)
    exact ⟨h4, h5, d2, d3, h1⟩
  · obtain ⟨h1, -, -, h4, h5⟩ := switchSearchTab_frame "videos" (searchStored ir vr w)
    obtain ⟨-, d2, d3, -⟩ := switchSearchTab_dom_frame "videos" (searchStored ir vr w)
    exact ⟨h4, h5, d2, d3, h1⟩
  · obtain ⟨h1, -, -, h4, h5⟩ := switchSearchTab_frame "images" (searchStored ir vr w)
    obtain ⟨-, d2, d3, -⟩ := switchSearchTab_dom_frame "images" (searchStored ir vr w)
    exact ⟨h4, h5, d2, d3, h1⟩

theorem handleSearchResume_grid (ir : ImagesResponse) (vr : VideosResponse) (w : World) :
    (ir.list ≠ [] →
        (handleSearchResume (.resolved ir) (.resolved vr) w).dom.grid =
          ir.list.map fun image =>
            createImageCard image (decide (image.source_id ∈ w.state.selectedImages))) ∧
      (ir.list = [] → vr.list ≠ [] →
        (handleSearchResume (.resolved ir) (.resolved vr) w).dom.grid =
          vr.list.map createVideoCard) ∧
      (ir.list = [] → vr.list = [] →
        (handleSearchResume (.resolved ir) (.resolved vr) w).dom.grid = []) := by
  rw [handleSearchResume_resolved]
  refine ⟨fun hI => ?_, fun hI hV => ?_, fun hI hV => ?_⟩
  · have hpos : ir.list.length > 0 := List.length_pos.mpr hI
    rw [if_pos hpos]
    exact switchSearchTab_images_grid (searchStored ir vr w) ir.list rfl
  · have hI0 : ¬ ir.list.length > 0 := by simp [hI]
    have hpos : vr.list.length > 0 := List.length_pos.mpr hV
    rw [if_neg hI0, if_pos hpos]
    exact switchSearchTab_videos_grid (searchStored ir vr w) vr.list rfl
  · have hI0 : ¬ ir.list.length > 0 := by simp [hI]
    have hV0 : ¬ vr.list.length > 0 := by simp [hV]
    rw [if_neg hI0, if_neg hV0]
    rfl

theorem handleSearchResume_tabs (ir : ImagesResponse) (vr : VideosResponse) (w : World) :
    (ir.list ≠ [] →
        (handleSearchResume (.resolved ir) (.resolved vr) w).dom.searchTabs =
            w.dom.searchTabs.map (fun t => { t with active := decide (t.tab = "images") }) ∧
          (handleSearchResume (.resolved ir) (.resolved vr) w).dom.searchTabsHidden = false) ∧
      (ir.list = [] → vr.list ≠ [] →
        (handleSearchResume (.resolved ir) (.resolved vr) w).dom.searchTabs =
            w.dom.searchTabs.map (fun t => { t with active := decide (t.tab = "videos") }) ∧
          (handleSearchResume (.resolved ir) (.resolved vr) w).dom.searchTabsHidden = false) ∧
      (ir.list = [] → vr.list = [] →
        (handleSearchResume (.resolved ir) (.resolved vr) w).dom.searchTabsHidden = true) := by
  rw [handleSearchResume_resolved]
  refine ⟨fun hI => ?_, fun hI hV => ?_, fun hI hV => ?_⟩
  · have hpos : ir.list.length > 0 := List.length_pos.mpr hI
    rw [if_pos hpos]
    obtain ⟨d1, -, -, d4⟩ := switchSearchTab_dom_frame "images" (searchStored ir vr w)
    exact ⟨d1, d4⟩
  · have hI0 : ¬ ir.list.length > 0 := by simp [hI]
    have hpos : vr.list.length > 0 := List.length_pos.mpr hV
    rw [if_neg hI0, if_pos hpos]
    obtain ⟨d1, -, -, d4⟩ := switchSearchTab_dom_frame "videos" (searchStored ir vr w)
    exact ⟨d1, d4⟩
  · have hI0 : ¬ ir.list.length > 0 := by simp [hI]
    have hV0 : ¬ vr.list.length > 0 := by simp [hV]
    rw [if_neg hI0, if_neg hV0]

theorem imagesResponse_list (I : List Entity) :
    ImagesResponse.list { success := true, images := some I } = I := rfl

theorem videosResponse_list (V : List Video) :
    VideosResponse.list { success := true, videos := some V } = V := rfl

theorem list_of_not_success_images (ir : ImagesResponse) (h : ir.success = false) :
    ir.list = [] := by
  simp [ImagesResponse.list, h]

theorem list_of_not_success_videos (vr : VideosResponse) (h : vr.success = false) :
    vr.list = [] := by
  simp [VideosResponse.list, h]

/-! ## C11 -/

/-- C11 fails as stated.  A search for `tank` is outstanding; the image request
rejects and the video request resolves with one video.  The list of the
successful video leg is not stored (`state.searchResultVideos` is still
undefined) and not rendered (the grid is empty); the search as a whole is
aborted with the error toast. -/
theorem search_legs_counterexample :
    (handleSearchResume .rejected (videosResponse [exampleVideo "v"])
        (searchingWorld "tank")).state.searchResultVideos ≠ some [exampleVideo "v"] ∧
      (handleSearchResume .rejected (videosResponse [exampleVideo "v"])
        (searchingWorld "tank")).state.searchResultVideos = none ∧
      (handleSearchResume .rejected (videosResponse [exampleVideo "v"])
        (searchingWorld "tank")).dom.grid = [] ∧
      (handleSearchResume .rejected (videosResponse [exampleVideo "v"])
        (searchingWorld "tank")).toasts =
          [{ message := "Arama sırasında hata oluştu", type := "error" }] := by
  decide

/-- C11 (amended): in the dual search of `handleSearch` a leg that resolves with
`success` false degrades to an empty list for its kind, and the list of the
other leg is still stored in the state and rendered.  A leg that rejects
aborts the search as a whole, whatever the other leg does: `Promise.all`
rejects, the `catch` block runs, `state` is left as it was (no list of either
kind is stored), the grid is emptied, the error toast is shown, and the
`#emptyState` element, when the document has one, is shown with the message
`Arama yapılamadı` and the icon `❌` (without that element nothing reports the
failure but the toast). -/
theorem search_legs (w : World) :
    (∀ videoResult, handleSearchResume .rejected videoResult w = searchFailed w) ∧
      (∀ imageResult, handleSearchResume imageResult .rejected w = searchFailed w) ∧
      ((searchFailed w).state = w.state ∧ (searchFailed w).dom.grid = [] ∧
        (searchFailed w).toasts =
          w.toasts ++ [{ message := "Arama sırasında hata oluştu", type := "error" }] ∧
        (∀ e, w.dom.emptyState = some e →
          (searchFailed w).dom.emptyState =
            some { hidden := false, message := "Arama yapılamadı", icon := "❌" }) ∧
        (w.dom.emptyState = none → (searchFailed w).dom.emptyState = none)) ∧
      (∀ ir vr,
        (handleSearchResume (.resolved ir) (.resolved vr) w).state.searchResultImages =
            some ir.list ∧
          (handleSearchResume (.resolved ir) (.resolved vr) w).state.searchResultVideos =
            some vr.list) ∧
      (∀ ir vr, ir.success = false → vr.list ≠ [] →
        (handleSearchResume (.resolved ir) (.resolved vr) w).state.searchResultImages =
            some [] ∧
          (handleSearchResume (.resolved ir) (.resolved vr) w).dom.grid =
            vr.list.map createVideoCard) ∧
      (∀ ir vr, vr.success = false → ir.list ≠ [] →
        (handleSearchResume (.resolved ir) (.resolved vr) w).state.searchResultVideos =
            some [] ∧
          (handleSearchResume (.resolved ir) (.resolved vr) w).dom.grid =
            ir.list.map fun image =>
              createImageCard image (decide (image.source_id ∈ w.state.selectedImages))) := by
  refine ⟨fun videoResult => handleSearchResume_rejected_left videoResult w,
    fun imageResult => handleSearchResume_rejected_right imageResult w,
    ⟨rfl, rfl, rfl, fun e he => ?_, fun he => ?_⟩, fun ir vr => ?_, fun ir vr hs hV => ?_,
    fun ir vr hs hI => ?_⟩
  · simp [searchFailed, showEmptyState, showToast, he, truthyStr]
  · simp [searchFailed, showEmptyState, showToast, he]
  · obtain ⟨h1, h2, -⟩ := handleSearchResume_stored ir vr w
    exact ⟨h1, h2⟩
  · obtain ⟨h1, -⟩ := handleSearchResume_stored ir vr w
    have hI : ir.list = [] := list_of_not_success_images ir hs
    rw [hI] at h1
    exact ⟨h1, (handleSearchResume_grid ir vr w).2.1 hI hV⟩
  · obtain ⟨-, h2, -⟩ := handleSearchResume_stored ir vr w
    have hV : vr.list = [] := list_of_not_success_videos vr hs
    rw [hV] at h2
    exact ⟨h2, (handleSearchResume_grid ir vr w).1 hI⟩

/-- C11 (amended), at a search for `tank` whose image leg resolves with
`success` false and whose video leg resolves with one video: the image list
degrades to the empty list and the video is stored and rendered.  The
document of that world has an `#emptyState` element, which reports the failure
when a leg rejects. -/
theorem search_legs_witness :
    ((handleSearchResume (.resolved { success := false, images := none })
          (videosResponse [exampleVideo "v"]) (searchingWorld "tank")).state.searchResultImages =
          some [] ∧
        (handleSearchResume (.resolved { success := false, images := none })
          (videosResponse [exampleVideo "v"]) (searchingWorld "tank")).dom.grid =
          [createVideoCard (exampleVideo "v")]) ∧
      (searchingWorld "tank").dom.emptyState.isSome = true ∧
      (searchFailed (searchingWorld "tank")).dom.emptyState =
        some { hidden := false, message := "Arama yapılamadı", icon := "❌" } :=
  ⟨(search_legs (searchingWorld "tank")).2.2.2.2.1 { success := false, images := none }
      { success := true, videos := some [exampleVideo "v"] } rfl (by decide),
   by decide,
   (search_legs (searchingWorld "tank")).2.2.1.2.2.2.1
      ((searchingWorld "tank").dom.emptyState.getD
        { hidden := false, message := "", icon := "" }) (by decide)⟩

/-! ## C12 -/

/-- C12: after a search resolves with the image list `I` and the video list
`V`, the image tab count shows `|I|` and the video tab count shows `|V|`; when
`I` is non-empty the tabs are shown and exactly the tabs named `images` are
active, and when `I` is empty and `V` is non-empty exactly the tabs named
`videos` are active. -/
theorem search_tab_counts (w : World) (I : List Entity) (V : List Video) :
    (handleSearchResume (imagesResponse I) (videosResponse V) w).dom.tabImageCount =
        toString I.length ∧
      (handleSearchResume (imagesResponse I) (videosResponse V) w).dom.tabVideoCount =
        toString V.length ∧
      (I ≠ [] →
        (handleSearchResume (imagesResponse I) (videosResponse V) w).dom.searchTabs =
            w.dom.searchTabs.map (fun t => { t with active := decide (t.tab = "images") }) ∧
          (handleSearchResume (imagesResponse I) (videosResponse V) w).dom.searchTabsHidden =
            false) ∧
      (I = [] → V ≠ [] →
        (handleSearchResume (imagesResponse I) (videosResponse V) w).dom.searchTabs =
            w.dom.searchTabs.map (fun t => { t with active := decide (t.tab = "videos") }) ∧
          (handleSearchResume (imagesResponse I) (videosResponse V) w).dom.searchTabsHidden =
            false) := by
  obtain ⟨-, -, h3, h4, -⟩ := handleSearchResume_stored { success := true, images := some I }
    { success := true, videos := some V } w
  obtain ⟨t1, t2, -⟩ := handleSearchResume_tabs { success := true, images := some I }
    { success := true, videos := some V } w
  rw [imagesResponse_list] at h3 t1 t2
  rw [videosResponse_list] at h4 t2
  exact ⟨h3, h4, t1, t2⟩

/-- C12, at a search for `tank` that returns 3 images and 2 videos: the counts
show `3` and `2` and the images tab is the active one. -/
theorem search_tab_counts_witness :
    [exampleEntity "a", exampleEntity "b", exampleEntity "c"] ≠ [] ∧
      (handleSearchResume
        (imagesResponse [exampleEntity "a", exampleEntity "b", exampleEntity "c"])
        (videosResponse [exampleVideo "v", exampleVideo "w"])
        (searchingWorld "tank")).dom.tabImageCount = "3" ∧
      (handleSearchResume
        (imagesResponse [exampleEntity "a", exampleEntity "b", exampleEntity "c"])
        (videosResponse [exampleVideo "v", exampleVideo "w"])
        (searchingWorld "tank")).dom.tabVideoCount = "2" ∧
      (handleSearchResume
        (imagesResponse [exampleEntity "a", exampleEntity "b", exampleEntity "c"])
        (videosResponse [exampleVideo "v", exampleVideo "w"])
        (searchingWorld "tank")).dom.searchTabs =
          [{ tab := "images", active := true }, { tab := "videos", active := false }] :=
  ⟨by decide,
   (search_tab_counts (searchingWorld "tank")
      [exampleEntity "a", exampleEntity "b", exampleEntity "c"]
      [exampleVideo "v", exampleVideo "w"]).1,
   (search_tab_counts (searchingWorld "tank")
      [exampleEntity "a", exampleEntity "b", exampleEntity "c"]
      [exampleVideo "v", exampleVideo "w"]).2.1,
   ((search_tab_counts (searchingWorld "tank")
      [exampleEntity "a", exampleEntity "b", exampleEntity "c"]
      [exampleVideo "v", exampleVideo "w"]).2.2.1 (by decide)).1⟩

/-! ## C13 -/

theorem switchSearchTab_empty_images_emptyState (w : World) (e : EmptyState)
    (himg : w.state.searchResultImages = some [])
    (he : w.dom.emptyState = some e) (hout : w.dom.emptyStateInGrid = false) :
    ∃ e', (switchSearchTab "images" w).dom.emptyState = some e' := by
  unfold switchSearchTab
  simp [updateSelectionUI, showEmptyState, hideEmptyState, himg, he, hout]

/-- C13 fails as stated.  A search for `obscure_term_x` returns no image and no
video.  The empty state is shown with the icon `🔍`, which `handleSearch`
passes to `showEmptyState`, and not with the default icon `🖼️` that
`showEmptyState` uses when the caller supplies none. -/
theorem no_results_default_icon_counterexample :
    noResultWorld.dom.emptyState =
        some { hidden := false, message := "Sonuç bulunamadı", icon := "🔍" } ∧
      noResultWorld.dom.emptyState.map (fun e => e.icon) ≠ some defaultEmptyIcon ∧
      noResultWorld.dom.searchTabsHidden = true := by
  decide

/-- C13 (amended): when a search returns 0 images and 0 videos, `handleSearch`
ends with the search tabs hidden, the grid empty and, for a document whose
`#emptyState` element lies outside the grid, the empty state shown with the
message `Sonuç bulunamadı` and the icon `🔍` that `handleSearch` passes, which
is not the default icon of `showEmptyState`. -/
theorem no_results_empty_state (w : World) (ir : ImagesResponse) (vr : VideosResponse)
    (hI : ir.list = []) (hV : vr.list = []) :
    (handleSearchResume (.resolved ir) (.resolved vr) w).dom.searchTabsHidden = true ∧
      (handleSearchResume (.resolved ir) (.resolved vr) w).dom.grid = [] ∧
      (∀ e, w.dom.emptyState = some e → w.dom.emptyStateInGrid = false →
        (handleSearchResume (.resolved ir) (.resolved vr) w).dom.emptyState =
          some { hidden := false, message := "Sonuç bulunamadı", icon := "🔍" }) ∧
      "🔍" ≠ defaultEmptyIcon := by
  refine ⟨(handleSearchResume_tabs ir vr w).2.2 hI hV, (handleSearchResume_grid ir vr w).2.2 hI hV,
    fun e he hout => ?_, by decide⟩
  have hI0 : ¬ ir.list.length > 0 := by simp [hI]
  have hV0 : ¬ vr.list.length > 0 := by simp [hV]
  rw [handleSearchResume_resolved, if_neg hI0, if_neg hV0]
  have hstored : (searchStored ir vr w).state.searchResultImages = some [] := by
    rw [← hI]
    rfl
  obtain ⟨e', he'⟩ := switchSearchTab_empty_images_emptyState (searchStored ir vr w) e hstored
    he hout
  simp [showEmptyState, he', truthyStr]

/-- C13 (amended), at the search for `obscure_term_x` in the start-up document:
both lists are empty, the tabs end hidden and the empty state shows the icon
`🔍`. -/
theorem no_results_empty_state_witness :
    ImagesResponse.list { success := true, images := some [] } = [] ∧
      VideosResponse.list { success := true, videos := some [] } = [] ∧
      noResultWorld.dom.searchTabsHidden = true ∧
      noResultWorld.dom.emptyState =
        some { hidden := false, message := "Sonuç bulunamadı", icon := "🔍" } :=
  ⟨rfl, rfl,
   (no_results_empty_state (searchingWorld "obscure_term_x")
      { success := true, images := some [] } { success := true, videos := some [] } rfl rfl).1,
   (no_results_empty_state (searchingWorld "obscure_term_x")
      { success := true, images := some [] } { success := true, videos := some [] }
      rfl rfl).2.2.1 _ rfl rfl⟩

/-! ## C14 -/

/-- C14: tab switching never fetches.  For every world and every tab name,
`switchSearchTab` issues no transport call (the list of requests is unchanged)
and leaves the held lists `state.searchResultImages` and
`state.searchResultVideos` unchanged; on the images tab the displayed list
`state.images` becomes exactly the held image list (the empty list when none
is held yet). -/
theorem switchSearchTab_no_fetch (tabName : String) (w : World) :
    (switchSearchTab tabName w).requests = w.requests ∧
      (switchSearchTab tabName w).state.searchResultImages = w.state.searchResultImages ∧
      (switchSearchTab tabName w).state.searchResultVideos = w.state.searchResultVideos ∧
      (switchSearchTab "images" w).state.images = w.state.searchResultImages.getD [] ∧
      (∀ images, w.state.searchResultImages = some images →
        (switchSearchTab "images" w).state.images = images) := by
  obtain ⟨h1, -, -, h4, h5⟩ := switchSearchTab_frame tabName w
  refine ⟨h1, h4, h5, switchSearchTab_images_state w, fun images himg => ?_⟩
  rw [switchSearchTab_images_state, himg]
  rfl

/-! ## C15 -/

theorem downloadSelectedRequest_nonempty (w : World) (hne : w.state.selectedImages.Nonempty) :
    downloadSelectedRequest w =
      { w with
        dom := { w.dom with downloadModalHidden := false }
        requests := w.requests ++ [.downloadBatch (selectedImageData w) (batchCategory w)] } := by
  have hcard : ¬ w.state.selectedImages.card = 0 := by
    rw [Finset.card_eq_zero]
    exact Finset.nonempty_iff_ne_empty.mp hne
  unfold downloadSelectedRequest
  rw [if_neg hcard]
  rfl

/-- C15: for every world with a non-empty selection `S` and displayed list `L`,
`downloadSelected` sends exactly one request, a batch request, and issues no
further request before the completion callback asks for the stats.  The images
of the batch request are the sublist of `L`, in displayed order, of the
entities whose id (`source_id || id`) is in `S`; its category is the current
category, or `diger` when there is none; and `ApiClient.downloadBatch` posts
them to `/download-batch` as `images` and `category_slug`. -/
theorem downloadSelected_batch (w : World) (hne : w.state.selectedImages.Nonempty) :
    (downloadSelectedRequest w).requests =
        w.requests ++ [.downloadBatch (selectedImageData w) (batchCategory w)] ∧
      (∀ outcome w', (downloadSelectedResume outcome w').requests = w'.requests) ∧
      (∀ result w', (downloadSelectedTimeout result w').requests = w'.requests ++ [.getStats]) ∧
      (selectedImageData w).Sublist w.state.images ∧
      (∀ img, img ∈ selectedImageData w ↔
        img ∈ w.state.images ∧ img.selectionId ∈ w.state.selectedImages) ∧
      (w.state.currentCategory = none → batchCategory w = "diger") ∧
      (∀ slug, w.state.currentCategory = some slug → slug ≠ "" → batchCategory w = slug) ∧
      ApiClient.downloadBatch (selectedImageData w) (batchCategory w) =
        { endpoint := "/download-batch"
          method := "POST"
          body := some { images := selectedImageData w, category_slug := batchCategory w } } := by
  refine ⟨?_, fun outcome w' => ?_, fun result w' => rfl, List.filter_sublist _, fun img => ?_,
    fun hnone => ?_, fun slug hslug hne' => ?_, rfl⟩
  · rw [downloadSelectedRequest_nonempty w hne]
  · unfold downloadSelectedResume
    cases outcome with
    | resolved result => simp only; split_ifs <;> rfl
    | rejected => rfl
  · simp [selectedImageData, List.mem_filter]
  · simp [batchCategory, hnone, truthyStr]
  · simp [batchCategory, hslug, truthyStr, hne']

/-- C15, at the world where `a`, `b`, `c` and `d` are displayed and selected and
no category is current: the selection is non-empty and the one request sent is
the batch request for the four entities with the category `diger`. -/
theorem downloadSelected_batch_witness :
    fourSelectedWorld.state.selectedImages.Nonempty ∧
      (downloadSelectedRequest fourSelectedWorld).requests =
        fourSelectedWorld.requests ++
          [.downloadBatch
            [exampleEntity "a", exampleEntity "b", exampleEntity "c", exampleEntity "d"]
            "diger"] :=
  ⟨⟨JsVal.str "a", by decide⟩,
   (downloadSelected_batch fourSelectedWorld ⟨JsVal.str "a", by decide⟩).1⟩

/-! ## C16 -/

/-- C16 fails as stated.  The batch request for four selected entities is
outstanding and the backend answers with `success` false and `failed = 4`.
The flow is over (no completion callback is scheduled), the four entities are
still selected and no stats request has been issued. -/
theorem batch_completion_counterexample :
    (downloadSelectedResume (.resolved failedBatchResult) batchRequestedWorld).timers = [] ∧
      (downloadSelectedResume (.resolved failedBatchResult)
        batchRequestedWorld).state.selectedImages.card = 4 ∧
      (downloadSelectedResume (.resolved failedBatchResult)
        batchRequestedWorld).state.selectedImages ≠ ∅ ∧
      Request.getStats ∉
        (downloadSelectedResume (.resolved failedBatchResult) batchRequestedWorld).requests := by
  decide

/-- C16 (amended): partial failure does not block completion of the batch
download.  For every backend response with `success` true, whatever its
`failed` count, the continuation schedules the completion callback, and
whenever that callback runs it empties `state.selectedImages`, issues the
stats request and shows a toast whose severity is `success` when `failed` is
not positive and `warning` when `failed > 0`.  A response with `success`
false changes nothing, and a rejected request only closes the modal and shows
the error toast: in both cases the selection stays and no stats request is
issued. -/
theorem batch_completion (w : World) (result : BatchResult) (hs : result.success = true) :
    (downloadSelectedResume (.resolved result) w).timers = w.timers ++ [result] ∧
      (∀ w' : World,
        (downloadSelectedTimeout result w').state.selectedImages = ∅ ∧
          (downloadSelectedTimeout result w').requests = w'.requests ++ [.getStats] ∧
          (downloadSelectedTimeout result w').dom.downloadModalHidden = true ∧
          (downloadSelectedTimeout result w').dom.downloadSelectedBtnDisabled = true ∧
          (downloadSelectedTimeout result w').toasts =
            w'.toasts ++
              [{ message := toString result.downloaded ++ " görsel indirildi, " ++
                    toString result.skipped ++ " atlandı"
                 type := if result.failed > 0 then "warning" else "success" }]) ∧
      (result.failed = 0 → (if result.failed > 0 then "warning" else "success") = "success") ∧
      (result.failed > 0 → (if result.failed > 0 then "warning" else "success") = "warning") ∧
      (∀ other : BatchResult, other.success = false →
        downloadSelectedResume (.resolved other) w = w) ∧
      ((downloadSelectedResume .rejected w).state = w.state ∧
        (downloadSelectedResume .rejected w).requests = w.requests ∧
        (downloadSelectedResume .rejected w).timers = w.timers ∧
        (downloadSelectedResume .rejected w).toasts =
          w.toasts ++ [{ message := "İndirme sırasında hata oluştu", type := "error" }]) := by
  refine ⟨?_, fun w' => ⟨rfl, rfl, rfl, ?_, rfl⟩, fun h0 => ?_, fun hpos => ?_,
    fun other ho => ?_, ⟨rfl, rfl, rfl, rfl⟩⟩
  · simp [downloadSelectedResume, hs]
  · simp [downloadSelectedTimeout, updateSelectionUI, showToast]
  · simp [h0]
  · simp [hpos]
  · simp [downloadSelectedResume, ho]

/-- C16 (amended), at the scenario response `{downloaded: 3, skipped: 1,
failed: 0, total: 4}` for four selected entities: the callback is scheduled,
and once it has run the selection is empty, the stats request is the last
request and the toast has success severity. -/
theorem batch_completion_witness :
    scenarioBatchResult.success = true ∧
      (downloadSelectedResume (.resolved scenarioBatchResult) batchRequestedWorld).timers =
        [scenarioBatchResult] ∧
      (downloadSelectedTimeout scenarioBatchResult
        (downloadSelectedResume (.resolved scenarioBatchResult)
          batchRequestedWorld)).state.selectedImages = ∅ ∧
      (downloadSelectedTimeout scenarioBatchResult
        (downloadSelectedResume (.resolved scenarioBatchResult)
          batchRequestedWorld)).requests.getLast? = some .getStats ∧
      (downloadSelectedTimeout scenarioBatchResult
        (downloadSelectedResume (.resolved scenarioBatchResult)
          batchRequestedWorld)).toasts =
        [{ message := "3 görsel indirildi, 1 atlandı", type := "success" }] :=
  ⟨rfl,
   (batch_completion batchRequestedWorld scenarioBatchResult rfl).1,
   ((batch_completion batchRequestedWorld scenarioBatchResult rfl).2.1 _).1,
   by decide,
   by decide⟩

/-! ## C17 -/

/-- C17: for every response whose status is not in the range 200 to 299,
`ApiClient.request` fails and never returns a body.  The error message is the
`detail` field of the body when the body parses as JSON and carries a
non-empty `detail` string, and is `HTTP Error: ` followed by the status code
when the body cannot be parsed (and also when the parsed body has no truthy
`detail`). -/
theorem request_non_ok {α : Type} (response : HttpResponse α) (hnok : response.ok = false) :
    (∀ b, ApiClient.request (.response response) ≠ .ok b) ∧
      (∀ (s : String) (content : α), response.body = .value (.str s) content → s ≠ "" →
        ApiClient.request (.response response) = .error (.error s)) ∧
      (response.body = .unparsable →
        ApiClient.request (.response response) =
          .error (.error ("HTTP Error: " ++ toString response.status))) ∧
      (∀ (detail : Detail) (content : α), response.body = .value detail content →
        detail.truthy = false →
        ApiClient.request (.response response) =
          .error (.error ("HTTP Error: " ++ toString response.status))) := by
  refine ⟨fun b => ?_, fun s content hb hs => ?_, fun hb => ?_, fun detail content hb hd => ?_⟩
  · unfold ApiClient.request
    simp only [hnok]
    cases response.body with
    | unparsable => simp
    | null => simp
    | value detail content => simp only [Bool.not_false, if_true]; split_ifs <;> simp
  · simp [ApiClient.request, hnok, hb, Detail.truthy, Detail.text, hs]
  · simp [ApiClient.request, hnok, hb]
  · simp [ApiClient.request, hnok, hb, hd]

/-- C17, at a 404 response whose body is `{"detail": "Not found"}` and at a 500
response whose body is not JSON: neither status is in the 2xx range, the first
fails with the message `Not found` and the second with `HTTP Error: 500`. -/
theorem request_non_ok_witness :
    HttpResponse.ok ({ status := 404, body := .value (.str "Not found") () } :
        HttpResponse Unit) = false ∧
      ApiClient.request (.response ({ status := 404, body := .value (.str "Not found") () } :
        HttpResponse Unit)) = .error (.error "Not found") ∧
      ApiClient.request (.response ({ status := 500, body := .unparsable } :
        HttpResponse Unit)) = .error (.error "HTTP Error: 500") :=
  ⟨rfl,
   (request_non_ok ({ status := 404, body := .value (.str "Not found") () } : HttpResponse Unit)
      rfl).2.1 "Not found" () rfl (by decide),
   (request_non_ok ({ status := 500, body := .unparsable } : HttpResponse Unit) rfl).2.2.1 rfl⟩

/-! ## C18 -/

/-- C18 fails as stated.  The document starts with the placeholder text
`Görsel yok`.  A search without results sets the text of the empty state to
`Sonuç bulunamadı`; `clearSearch` then calls `showEmptyState()` with no message
and no icon, and the empty state is shown with the default icon but still with
the text of the failed search, not with the placeholder text. -/
theorem showEmptyState_default_counterexample :
    placeholderNoResultWorld.state.currentCategory = none ∧
      (clearSearch placeholderNoResultWorld).dom.emptyState =
        some { hidden := false, message := "Sonuç bulunamadı", icon := defaultEmptyIcon } ∧
      (clearSearch placeholderNoResultWorld).dom.emptyState.map (fun e => e.message) ≠
        placeholderWorld.dom.emptyState.map (fun e => e.message) := by
  decide

/-- C18 (amended): whenever `showEmptyState` is called with no message and no
icon and the `#emptyState` element is in the document, the empty state is made
visible with the default icon and with the message it showed before, which is
the placeholder text of the markup only when no caller has set another
message; every card is removed from the grid.  The call in `clearSearch`
(without a current category) leaves the empty state so. -/
theorem showEmptyState_default (w : World) (e : EmptyState) (he : w.dom.emptyState = some e) :
    (showEmptyState none none w).dom.emptyState =
        some { hidden := false, message := e.message, icon := defaultEmptyIcon } ∧
      (showEmptyState none none w).dom.grid = [] ∧
      (truthyStr w.state.currentCategory = false →
        (clearSearch w).dom.emptyState =
          some { hidden := false, message := e.message, icon := defaultEmptyIcon }) := by
  refine ⟨?_, rfl, fun hc => ?_⟩
  · simp [showEmptyState, he, truthyStr]
  · unfold clearSearch
    simp only [hc]
    simp [showEmptyState, renderImages, updateSelectionUI, hideEmptyState, he, truthyStr]

/-- C18 (amended), at the start-up document with the placeholder text: the
element is in the document and `showEmptyState()` shows the placeholder text
with the default icon. -/
theorem showEmptyState_default_witness :
    placeholderWorld.dom.emptyState =
        some { hidden := false, message := "Görsel yok", icon := defaultEmptyIcon } ∧
      (showEmptyState none none placeholderWorld).dom.emptyState =
        some { hidden := false, message := "Görsel yok", icon := defaultEmptyIcon } :=
  ⟨rfl, (showEmptyState_default placeholderWorld _ rfl).1⟩

/-! ## C19 -/

/-- A click on a card without a checkbox takes the branch of
`handleImageGridClick` that opens the modal and leaves `state` as it is. -/
theorem handleImageGridClick_no_checkbox (w : World) (idx : Nat) (card : Card)
    (onCheckbox : Bool) (hget : w.dom.grid.get? idx = some card) (hbox : card.checkbox = false) :
    handleImageGridClick (some idx) onCheckbox w = openImageModal card w ∧
      (handleImageGridClick (some idx) onCheckbox w).state = w.state := by
  have hclick : handleImageGridClick (some idx) onCheckbox w = openImageModal card w := by
    unfold handleImageGridClick
    simp only [hget, hbox, Bool.and_false]
    rfl
  refine ⟨hclick, ?_⟩
  rw [hclick]
  unfold openImageModal
  cases card.imageData <;> rfl

/-- Rendering videos leaves `state.selectedImages` as it is. -/
theorem renderVideos_selected (videos : List Video) (w : World) :
    (renderVideos videos w).state.selectedImages = w.state.selectedImages ∧
      (renderVideos videos w).dom.grid = videos.map renderVideosCard ∧
      (switchSearchTab "videos" w).state.selectedImages = w.state.selectedImages :=
  ⟨rfl, rfl, switchSearchTab_selected "videos" w⟩

/-- The markup of the card of `quotedTitleVideo`: the title passes through
`escapeHtml` as it is, and the third tag of the card is the image with the
class `image-card-checkbox`. -/
theorem quotedTitle_markup :
    escapeHtml quotedTitleVideo.title = "v\" class=\"image-card-checkbox" ∧
      ((startTags (videoCardMarkup quotedTitleVideo)).get? 2).map
          (fun tag => (tag.name, tag.attrs.take 3)) =
        some ("img", [("src", ""), ("alt", "v"), ("class", "image-card-checkbox")]) :=
  ⟨by decide!, by decide!⟩

/-- Both cards of `quotedTitleVideo` have an element of class
`image-card-checkbox`. -/
theorem quotedTitle_checkbox :
    (createVideoCard quotedTitleVideo).checkbox = true ∧
      (renderVideosCard quotedTitleVideo).checkbox = true :=
  ⟨by decide!, by decide!⟩

/-- A click on the image of the card that `renderVideos` displays for
`quotedTitleVideo` selects `undefined`. -/
theorem quotedTitleWorld_click :
    quotedTitleWorld.dom.grid = [renderVideosCard quotedTitleVideo] ∧
      quotedTitleWorld.state.selectedImages = ∅ ∧
      (handleImageGridClick (some 0) true quotedTitleWorld).state.selectedImages =
        {JsVal.undefined} ∧
      (handleImageGridClick (some 0) true quotedTitleWorld).dom.grid.map Card.selected =
        [true] ∧
      (handleImageGridClick (some 0) true quotedTitleWorld).dom.downloadSelectedBtnDisabled =
        false :=
  ⟨by decide!, by decide!, by decide!, by decide!, by decide!⟩

/-- A click on the image of the card that `switchSearchTab` displays for
`quotedTitleVideo` selects `undefined`. -/
theorem quotedTitleSearchWorld_click :
    quotedTitleSearchWorld.dom.grid = [createVideoCard quotedTitleVideo] ∧
      quotedTitleSearchWorld.state.selectedImages = ∅ ∧
      (handleImageGridClick (some 0) true quotedTitleSearchWorld).state.selectedImages =
        {JsVal.undefined} :=
  ⟨by decide!, by decide!, by decide!⟩

/-- The cards of a video with the title `v` have no checkbox, and a click on
such a card selects nothing. -/
theorem plainTitle_no_checkbox :
    (createVideoCard (exampleVideo "v")).checkbox = false ∧
      (renderVideosCard (exampleVideo "v")).checkbox = false ∧
      (handleImageGridClick (some 0) true oneVideoWorld).state.selectedImages =
        oneVideoWorld.state.selectedImages :=
  ⟨by decide!, by decide!, by decide!⟩

/-- C19 does not hold of the code at the video whose title is
`v" class="image-card-checkbox`.  `escapeHtml` leaves the quotation marks of
the title as they are, so the image tag of the card reads
`alt="v" class="image-card-checkbox"` and the image is an element of class
`image-card-checkbox`, in the card of `createVideoCard` and in the card of
`renderVideos`.  In the world that displays this video through `loadVideos`
nothing is selected; a click on the image of the card makes
`handleImageGridClick` call `toggleImageSelection`, which adds `undefined`,
the missing `dataset.imageId` of a video card, to `state.selectedImages`,
marks the card as selected and enables the download button.  The same happens
in the world that displays the video after a search.  A video with the title
`v` gives a card without a checkbox, on which the same click selects
nothing. -/
theorem video_card_title_checkbox :
    (escapeHtml quotedTitleVideo.title = "v\" class=\"image-card-checkbox" ∧
        ((startTags (videoCardMarkup quotedTitleVideo)).get? 2).map
            (fun tag => (tag.name, tag.attrs.take 3)) =
          some ("img", [("src", ""), ("alt", "v"), ("class", "image-card-checkbox")])) ∧
      ((createVideoCard quotedTitleVideo).checkbox = true ∧
        (renderVideosCard quotedTitleVideo).checkbox = true) ∧
      (quotedTitleWorld.dom.grid = [renderVideosCard quotedTitleVideo] ∧
        quotedTitleWorld.state.selectedImages = ∅ ∧
        (handleImageGridClick (some 0) true quotedTitleWorld).state.selectedImages =
          {JsVal.undefined} ∧
        (handleImageGridClick (some 0) true quotedTitleWorld).dom.grid.map Card.selected =
          [true] ∧
        (handleImageGridClick (some 0) true quotedTitleWorld).dom.downloadSelectedBtnDisabled =
          false) ∧
      (quotedTitleSearchWorld.dom.grid = [createVideoCard quotedTitleVideo] ∧
        quotedTitleSearchWorld.state.selectedImages = ∅ ∧
        (handleImageGridClick (some 0) true quotedTitleSearchWorld).state.selectedImages =
          {JsVal.undefined}) ∧
      ((createVideoCard (exampleVideo "v")).checkbox = false ∧
        (renderVideosCard (exampleVideo "v")).checkbox = false ∧
        (handleImageGridClick (some 0) true oneVideoWorld).state.selectedImages =
          oneVideoWorld.state.selectedImages) :=
  ⟨quotedTitle_markup, quotedTitle_checkbox, quotedTitleWorld_click,
   quotedTitleSearchWorld_click, plainTitle_no_checkbox⟩

/-! ## C20 -/

theorem loadCategoryImagesResume_success (result : ImagesResponse) (w : World)
    (hs : result.success = true) :
    (loadCategoryImagesResume (.resolved result) w).state =
        { w.state with images := result.images.getD [] } ∧
      (loadCategoryImagesResume (.resolved result) w).dom.grid =
        (result.images.getD []).map fun image =>
          createImageCard image (decide (image.selectionId ∈ w.state.selectedImages)) := by
  unfold loadCategoryImagesResume
  simp only [hs, if_true]
  cases h : result.images.getD [] with
  | nil => simp [renderImages, showEmptyState, h]
  | cons image rest => simp [renderImages, updateSelectionUI, hideEmptyState, h]

/-- C20: the last-resolved response wins.  For every world that exists at the
moment a category-images response resolves successfully, the continuation of
`loadCategoryImages` sets `state.images` to the images of the response and
renders them, and leaves view, category and query as they are: nothing checks
that the response belongs to the current intent.  So of two successful
responses the one that resolves last determines the displayed list, in either
order of resolution and whatever was requested first.  The continuation of
`handleSearch` stores its lists in the same unconditional way. -/
theorem last_resolved_wins (w : World) (result : ImagesResponse)
    (hs : result.success = true) :
    (loadCategoryImagesResume (.resolved result) w).state.images = result.images.getD [] ∧
      (loadCategoryImagesResume (.resolved result) w).dom.grid =
        (result.images.getD []).map (fun image =>
          createImageCard image (decide (image.selectionId ∈ w.state.selectedImages))) ∧
      (loadCategoryImagesResume (.resolved result) w).state.currentView = w.state.currentView ∧
      (loadCategoryImagesResume (.resolved result) w).state.currentCategory =
        w.state.currentCategory ∧
      (loadCategoryImagesResume (.resolved result) w).state.currentQuery =
        w.state.currentQuery ∧
      (∀ other : Outcome ImagesResponse,
        (loadCategoryImagesResume (.resolved result)
          (loadCategoryImagesResume other w)).state.images = result.images.getD []) ∧
      (∀ other : ImagesResponse, other.success = true →
        (loadCategoryImagesResume (.resolved other)
          (loadCategoryImagesResume (.resolved result) w)).state.images =
            other.images.getD []) ∧
      (∀ (ir : ImagesResponse) (vr : VideosResponse),
        (handleSearchResume (.resolved ir) (.resolved vr) w).state.searchResultImages =
          some ir.list) := by
  obtain ⟨hstate, hgrid⟩ := loadCategoryImagesResume_success result w hs
  refine ⟨by rw [hstate], hgrid, by rw [hstate], by rw [hstate], by rw [hstate],
    fun other => ?_, fun other ho => ?_, fun ir vr => (handleSearchResume_stored ir vr w).1⟩
  · rw [(loadCategoryImagesResume_success result _ hs).1]
  · rw [(loadCategoryImagesResume_success other _ ho).1]

/-- C20, at two outstanding loads: the user selects `tanks` and then `planes`;
the response for `planes` (the entity `b`) resolves first and the response for
`tanks` (the entity `a`) resolves last.  The displayed list is then `[a]`, the
list of the category requested first, while the current category is
`planes`. -/
theorem last_resolved_wins_witness :
    ({ success := true, images := some [exampleEntity "a"] } : ImagesResponse).success = true ∧
      (loadCategoryImagesResume (imagesResponse [exampleEntity "a"])
        (loadCategoryImagesResume (imagesResponse [exampleEntity "b"])
          twoLoadsWorld)).state.images = [exampleEntity "a"] ∧
      (loadCategoryImagesResume (imagesResponse [exampleEntity "a"])
        (loadCategoryImagesResume (imagesResponse [exampleEntity "b"])
          twoLoadsWorld)).state.currentCategory = some "planes" ∧
      twoLoadsWorld.requests =
        [.getCategoryImages "tanks" 100, .getCategoryImages "planes" 100] :=
  ⟨rfl,
   (last_resolved_wins twoLoadsWorld { success := true, images := some [exampleEntity "a"] }
      rfl).2.2.2.2.2.1 (imagesResponse [exampleEntity "b"]),
   by decide,
   by decide⟩

/-! ## C21 -/

/-- C21: if the ids of the displayed list `state.images` are pairwise distinct
and `state.selectedImages` is a subset of those ids, then the select-all flag
that `updateSelectionUI` writes (`count > 0 && count === state.images.length`)
is true if and only if the list is non-empty and every displayed entity is
selected. -/
theorem selectAll_flag_iff (w : World)
    (hnodup : (w.state.images.map Entity.selectionId).Nodup)
    (hsub : w.state.selectedImages ⊆ (w.state.images.map Entity.selectionId).toFinset) :
    (updateSelectionUI w).dom.selectAllChecked = true ↔
      w.state.images ≠ [] ∧ ∀ image ∈ w.state.images,
        image.selectionId ∈ w.state.selectedImages := by
  have hcard : (w.state.images.map Entity.selectionId).toFinset.card = w.state.images.length := by
    rw [List.toFinset_card_of_nodup hnodup, List.length_map]
  have hflag : (updateSelectionUI w).dom.selectAllChecked = true ↔
      0 < w.state.selectedImages.card ∧ w.state.selectedImages.card = w.state.images.length := by
    simp [updateSelectionUI]
  rw [hflag]
  constructor
  · rintro ⟨hpos, heq⟩
    have hS : w.state.selectedImages = (w.state.images.map Entity.selectionId).toFinset :=
      Finset.eq_of_subset_of_card_le hsub (by rw [hcard, heq])
    refine ⟨?_, fun image himage => ?_⟩
    · intro hnil
      rw [heq, hnil] at hpos
      exact Nat.lt_irrefl 0 hpos
    · rw [hS]
      exact List.mem_toFinset.mpr (List.mem_map_of_mem _ himage)
  · rintro ⟨hne, hall⟩
    have hsup : (w.state.images.map Entity.selectionId).toFinset ⊆ w.state.selectedImages := by
      intro v hv
      obtain ⟨image, himage, rfl⟩ := List.mem_map.mp (List.mem_toFinset.mp hv)
      exact hall image himage
    have hS : w.state.selectedImages = (w.state.images.map Entity.selectionId).toFinset :=
      Finset.Subset.antisymm hsub hsup
    have heq : w.state.selectedImages.card = w.state.images.length := by
      rw [hS, hcard]
    refine ⟨?_, heq⟩
    rw [heq]
    exact List.length_pos.mpr hne

/-- C21, at the world where the single entity `a` is displayed and selected:
the ids are distinct, the selection is a subset of them, the flag is true and
every displayed entity is selected. -/
theorem selectAll_flag_iff_witness :
    (oneSelectedWorld.state.images.map Entity.selectionId).Nodup ∧
      oneSelectedWorld.state.selectedImages ⊆
        (oneSelectedWorld.state.images.map Entity.selectionId).toFinset ∧
      (updateSelectionUI oneSelectedWorld).dom.selectAllChecked = true ∧
      (oneSelectedWorld.state.images ≠ [] ∧ ∀ image ∈ oneSelectedWorld.state.images,
        image.selectionId ∈ oneSelectedWorld.state.selectedImages) :=
  ⟨by decide, by decide, by decide,
   (selectAll_flag_iff oneSelectedWorld (by decide) (by decide)).mp (by decide)⟩

/-! ## C22 -/

theorem handleSearchRequest_requests (w : World) (hq : jsTrim w.dom.searchInputValue ≠ "") :
    (handleSearchRequest w).requests =
      w.requests ++
        [.searchImages (jsTrim w.dom.searchInputValue) 50 w.state.minWidth none,
         .searchVideos (jsTrim w.dom.searchInputValue) 30] := by
  unfold handleSearchRequest
  simp only [if_neg hq]

/-- C22 fails as stated.  A search for `tank` is outstanding and the user picks
the width 0, so `state.minWidth` is 0 and the search is repeated.  The repeated
image search is called with `minWidth: 0`, and `ApiClient.searchImages` sends
`min_width=800`, its default, instead of 0. -/
theorem minWidth_param_counterexample :
    zeroWidthWorld.state.minWidth = .int 0 ∧
      zeroWidthWorld.requests.drop 2 =
        [.searchImages "tank" 50 (.int 0) none, .searchVideos "tank" 30] ∧
      (ApiClient.searchImages "tank" 50 (.int 0) none).params.lookup "min_width" =
        some "800" ∧
      zeroWidthWorld.state.minWidth.toJsString = "0" ∧
      (ApiClient.searchImages "tank" 50 (.int 0) none).params.lookup "min_width" ≠
        some zeroWidthWorld.state.minWidth.toJsString := by
  decide

/-- C22 (amended): for every value of `state.minWidth` other than 0 and `NaN`,
the image-search request that `handleSearch` builds through
`ApiClient.searchImages` carries a `min_width` parameter that is
`state.minWidth` as `Number::toString` writes it; for 0 and for `NaN`, the
falsy numbers, the expression `options.minWidth || 800` sends the default 800.
The width select stores the number it parses in `state.minWidth`.  In
particular 600 is sent as `600`, `10^21` as `1e+21`, and a select value
without digits, parsed to `NaN`, sends `800`. -/
theorem minWidth_param (w : World) (hq : jsTrim w.dom.searchInputValue ≠ "") :
    (handleSearchRequest w).requests =
        w.requests ++
          [.searchImages (jsTrim w.dom.searchInputValue) 50 w.state.minWidth none,
           .searchVideos (jsTrim w.dom.searchInputValue) 30] ∧
      Request.searchCall
          (.searchImages (jsTrim w.dom.searchInputValue) 50 w.state.minWidth none) =
        some (ApiClient.searchImages (jsTrim w.dom.searchInputValue) 50 w.state.minWidth none) ∧
      (w.state.minWidth ≠ .int 0 → w.state.minWidth ≠ .nan →
        (ApiClient.searchImages (jsTrim w.dom.searchInputValue) 50 w.state.minWidth
          none).params.lookup "min_width" = some w.state.minWidth.toJsString) ∧
      (w.state.minWidth = .int 0 ∨ w.state.minWidth = .nan →
        (ApiClient.searchImages (jsTrim w.dom.searchInputValue) 50 w.state.minWidth
          none).params.lookup "min_width" = some "800") ∧
      (∀ value : JsNumber, (changeMinWidth value w).state.minWidth = value) ∧
      (JsNumber.int 600).toJsString = "600" ∧
      (JsNumber.int (10 ^ 21)).toJsString = "1e+21" ∧
      nanWidthWorld.requests.drop 2 =
        [.searchImages "tank" 50 .nan none, .searchVideos "tank" 30] ∧
      (ApiClient.searchImages "tank" 50 .nan none).params.lookup "min_width" = some "800" := by
  have h800 : (JsNumber.int 800).toJsString = "800" := by decide
  refine ⟨handleSearchRequest_requests w hq, rfl, fun hzero hnan => ?_, fun hfalsy => ?_,
    fun value => ?_, by decide, by decide, by decide, by decide⟩
  · have ht : w.state.minWidth.truthy = true := by
      cases hm : w.state.minWidth with
      | nan => exact absurd hm hnan
      | posInfinity => rfl
      | negInfinity => rfl
      | int n =>
        have hn : n ≠ 0 := fun h => hzero (by rw [hm, h])
        simpa [JsNumber.truthy] using hn
    simp [ApiClient.searchImages, List.lookup, ht]
  · have hf : w.state.minWidth.truthy = false := by
      rcases hfalsy with h | h <;> rw [h] <;> rfl
    simp [ApiClient.searchImages, List.lookup, hf, h800]
  · unfold changeMinWidth
    simp only
    split_ifs
    · unfold handleSearchRequest
      simp only
      split_ifs <;> rfl
    · rfl

/-- C22 (amended), at a search for `tank` typed into the start-up document,
whose `state.minWidth` is 600: the query is non-blank, the width is neither 0
nor `NaN`, and the request carries `min_width=600`. -/
theorem minWidth_param_witness :
    jsTrim (typeSearch "tank" initialWorld).dom.searchInputValue ≠ "" ∧
      ((typeSearch "tank" initialWorld).state.minWidth ≠ .int 0 ∧
        (typeSearch "tank" initialWorld).state.minWidth ≠ .nan) ∧
      (ApiClient.searchImages (jsTrim (typeSearch "tank" initialWorld).dom.searchInputValue) 50
        (typeSearch "tank" initialWorld).state.minWidth none).params.lookup "min_width" =
          some (typeSearch "tank" initialWorld).state.minWidth.toJsString ∧
      (ApiClient.searchImages "tank" 50 (.int 600) none).params.lookup "min_width" =
        some "600" :=
  ⟨by decide, ⟨by decide, by decide⟩,
   (minWidth_param (typeSearch "tank" initialWorld) (by decide)).2.2.1 (by decide) (by decide),
   by decide⟩

end WW2
